import Mathlib

/-!
# main.js: camera-panning state machine, load counter and overlay positioner

A shallow embedding of `src/main.js`.  The module-level mutable variables of the
script are gathered in one record `State`; every handler of the script
(`onModelLoaded`, the completion callbacks of `loadModel`, the click listener,
`goBack`, `animateCameraPanning`, the `setTimeout` reveal callback,
`updateNavPosition`, the resize listener) is a function on that record.

Numbers are taken in exact arithmetic: the embedding is generic in a linearly
ordered field `α` (instantiated with `ℚ` for evaluation and with `ℝ` where
`Math.sin` and `Math.cos` are the real sine and cosine).  What main.js only
obtains from its collaborators is an input of the handler that reads it: the
number of ray intersections found by the raycaster, the two readings of
`Date.now()`, the projection of a local point of the rectangle to normalized
device coordinates together with the viewport size, the presence of the two
`window` hooks, and the initial inline styles of the DOM elements.

A tick is one call of `animateCameraPanning`.  The rest of `animate` (the
`controls.update()` of OrbitControls, the cursor feedback, `composer.render()`),
the `mousemove` listener and the DOM navigation glue of lines 407-463 assign
none of the variables of `State` through code of main.js and are left out.
-/

set_option linter.unusedSectionVars false

namespace MainJs

/-- THREE.Vector3, with the components main.js reads and writes. -/
@[ext] structure Vector3 (α : Type) where
  x : α
  y : α
  z : α
deriving DecidableEq

/-- The objects main.js adds to (or removes from) the scene.  A loaded model is
named by its file: the seven requests of lines 106-112 load seven files. -/
inductive SceneObject where
  | pointLight
  | ambientLight
  | spotlight
  | carpetMesh
  | rectangleMesh
  | model (fileName : String)
deriving DecidableEq

/-- The two cursors main.js assigns to `document.body.style.cursor`
(`assets/cursors/retrocursor.png` and `assets/cursors/retrocursorsel.png`);
`unset` is the value before the script assigns one. -/
inductive Cursor where
  | unset
  | retrocursor
  | retrocursorsel
deriving DecidableEq

/-- Inline style of the `nav` element: the properties main.js assigns.  `left`,
`top`, `width` and `height` hold the number that the script suffixes with `px`;
`none` is a property that has not been assigned. -/
@[ext] structure NavStyle (α : Type) where
  opacity : String
  position : String
  left : Option α
  top : Option α
  width : Option α
  height : Option α
deriving DecidableEq

/-- The DOM elements main.js looks up and does not create: `querySelector` and
`getElementById` give `none` when the element is absent.  For `Title` and
`Subtitle` the value is the inline opacity. -/
structure Dom (α : Type) where
  nav : Option (NavStyle α)
  title : Option String
  subtitle : Option String

/-- The two optional hooks on `window` that `onModelLoaded` tests before it
calls them: `true` when the hook is defined at the time of the call. -/
structure Window where
  updateLoadingProgress : Bool
  threeJsLoaded : Bool
deriving DecidableEq

/-- What `updateNavPosition` reads from the renderer and the window:
`project corner` is `rectangleMesh.localToWorld(corner)` followed by
`project(camera)`, a point in normalized device coordinates. -/
structure View (α : Type) where
  project : Vector3 α → Vector3 α
  innerWidth : α
  innerHeight : α

/-- The functions `Math.sin` and `Math.cos`. -/
structure JsMath (α : Type) where
  sin : α → α
  cos : α → α

/-- Outcome of one `loader.load` request: the success callback gets the loaded
gltf, the error callback gets the error. -/
inductive LoadResult where
  | gltf
  | error
deriving DecidableEq

/-- The module-level state of main.js. -/
@[ext] structure State (α : Type) where
  /-- Counter `modelsLoaded` (line 12). -/
  modelsLoaded : Nat
  /-- Number of calls made to `window.updateLoadingProgress`. -/
  updateLoadingProgressCalls : Nat
  /-- Number of calls made to `window.threeJsLoaded`. -/
  threeJsLoadedCalls : Nat
  /-- Paths logged by `console.error`. -/
  consoleErrors : List String
  /-- Variable `computerModel` (line 67), `none` while undefined. -/
  computerModel : Option SceneObject
  /-- Value of `scene.children`. -/
  scene : List SceneObject
  /-- Value of `camera.position`. -/
  cameraPosition : Vector3 α
  /-- Argument of the last `camera.lookAt` call of main.js. -/
  cameraLookAt : Vector3 α
  /-- Value of `controls.enabled`. -/
  controlsEnabled : Bool
  /-- Value of `controls.enableZoom`. -/
  controlsEnableZoom : Bool
  isPanning : Bool
  isPanned : Bool
  isReturning : Bool
  panningProgress : α
  targetPosition : Vector3 α
  startPosition : Vector3 α
  nav : Option (NavStyle α)
  title : Option String
  subtitle : Option String
  backButtonOpacity : String
  backButtonPointerEvents : String
  cursor : Cursor
  /-- Number of `setTimeout(…, 300)` callbacks scheduled and not yet run. -/
  pendingReveals : Nat

section Definitions

variable {α : Type} [LinearOrderedField α]

/-- THREE `lerpVectors`: `this.x = v1.x + (v2.x - v1.x) * alpha`, and so on. -/
def Vector3.lerpVectors (v1 v2 : Vector3 α) (alpha : α) : Vector3 α :=
  { x := v1.x + (v2.x - v1.x) * alpha
    y := v1.y + (v2.y - v1.y) * alpha
    z := v1.z + (v2.z - v1.z) * alpha }

/-- THREE `scene.remove(object)`: the object is taken out of `children`
(`children` never holds an object twice). -/
def sceneRemove (children : List SceneObject) (object : SceneObject) : List SceneObject :=
  children.filter (fun o => o ≠ object)

/-- THREE `scene.add(object)`: the object is detached from its parent and
pushed at the end of `children`. -/
def sceneAdd (children : List SceneObject) (object : SceneObject) : List SceneObject :=
  sceneRemove children object ++ [object]

/-- Line 11: `let modelsToLoad = 7` (never reassigned). -/
def modelsToLoad : Nat := 7

/-- Line 217. -/
def originalPosition : Vector3 α := ⟨1.4, 1.1, 1.8⟩

/-- Line 218. -/
def zoomedPosition : Vector3 α := ⟨0.0118, 1.14, 0.6⟩

/-- The state after the top-level statements of main.js have run, before any
callback: lines 12, 32-37, 51-55, 67, 115-159, 211-216, 261-285. -/
def init (dom : Dom α) : State α :=
  { modelsLoaded := 0
    updateLoadingProgressCalls := 0
    threeJsLoadedCalls := 0
    consoleErrors := []
    computerModel := none
    scene := [.pointLight, .ambientLight, .spotlight, .carpetMesh]
    cameraPosition := ⟨1.4, 1.1, 1.8⟩
    cameraLookAt := ⟨0, 0.6, 0⟩
    controlsEnabled := true
    controlsEnableZoom := true
    isPanning := false
    isPanned := false
    isReturning := false
    panningProgress := 0
    targetPosition := ⟨0, 0, 0⟩
    startPosition := ⟨0, 0, 0⟩
    nav := dom.nav
    title := dom.title
    subtitle := dom.subtitle
    backButtonOpacity := "0"
    backButtonPointerEvents := "none"
    cursor := .unset
    pendingReveals := 0 }

/-- Lines 14-25. -/
def onModelLoaded (w : Window) (s : State α) : State α :=
  let s1 := { s with modelsLoaded := s.modelsLoaded + 1 }
  let s2 :=
    if w.updateLoadingProgress then
      { s1 with updateLoadingProgressCalls := s1.updateLoadingProgressCalls + 1 }
    else s1
  if s2.modelsLoaded = modelsToLoad then
    if w.threeJsLoaded then
      { s2 with threeJsLoadedCalls := s2.threeJsLoadedCalls + 1 }
    else s2
  else s2

/-- Lines 70-103: the completion of the request `loadModel(fileName, …)`, that
is the success callback (lines 75-95) or the error callback (lines 97-101). -/
def loadModel (fileName : String) (r : LoadResult) (w : Window) (s : State α) : State α :=
  match r with
  | .gltf =>
    let model := SceneObject.model fileName
    let s1 := if fileName = "8_bit_pc.glb" then { s with computerModel := some model } else s
    onModelLoaded w { s1 with scene := sceneAdd s1.scene model }
  | .error =>
    onModelLoaded w { s with consoleErrors := s.consoleErrors ++ ["./models/" ++ fileName] }

/-- Lines 220-232: the click listener; `intersects` is the length of the array
returned by `raycaster.intersectObject(computerModel, true)`. -/
def click (intersects : Nat) (s : State α) : State α :=
  if s.computerModel.isSome && !s.isPanned && !s.isPanning then
    if intersects > 0 then
      { s with
        targetPosition := zoomedPosition
        startPosition := s.cameraPosition
        isPanning := true
        panningProgress := 0 }
    else s
  else s

/-- Lines 236-258. -/
def goBack (s : State α) : State α :=
  if s.isPanned && !s.isReturning then
    { s with
      targetPosition := originalPosition
      startPosition := s.cameraPosition
      isReturning := true
      isPanning := true
      panningProgress := 0
      nav := s.nav.map (fun n => { n with opacity := "0" })
      scene := sceneRemove s.scene .rectangleMesh
      title := s.title.map (fun _ => "1")
      subtitle := s.subtitle.map (fun _ => "1")
      cursor := .retrocursor }
  else s

/-- Lines 361-364: a projected point in pixels. -/
def toScreen (v : View α) (corner : Vector3 α) : α × α :=
  let worldPos := v.project corner
  ((worldPos.x * 0.5 + 0.5) * v.innerWidth, (1 - worldPos.y * 0.5 - 0.5) * v.innerHeight)

/-- Lines 348-380. -/
def updateNavPosition (v : View α) (s : State α) : State α :=
  if !s.isPanned then s
  else
    let c0 := toScreen v ⟨-0.439, -0.255, 0⟩
    let c1 := toScreen v ⟨0.439, -0.255, 0⟩
    let c2 := toScreen v ⟨-0.439, 0.255, 0⟩
    let c3 := toScreen v ⟨0.439, 0.255, 0⟩
    let minX := min (min (min c0.1 c1.1) c2.1) c3.1
    let maxX := max (max (max c0.1 c1.1) c2.1) c3.1
    let minY := min (min (min c0.2 c1.2) c2.2) c3.2
    let maxY := max (max (max c0.2 c1.2) c2.2) c3.2
    { s with
      nav := s.nav.map (fun n =>
        { n with
          position := "absolute"
          left := some minX
          top := some minY
          width := some (maxX - minX)
          height := some (maxY - minY) }) }

/-- Lines 321-330: the body of the callback given to `setTimeout`. -/
def revealCallback (v : View α) (s : State α) : State α :=
  let s1 := { s with scene := sceneAdd s.scene .rectangleMesh }
  let s2 := updateNavPosition v s1
  { s2 with
    nav := s2.nav.map (fun n => { n with opacity := "1" })
    backButtonOpacity := "1"
    backButtonPointerEvents := "auto" }

/-- The timer runs the oldest pending reveal callback; without a pending
callback nothing happens. -/
def fireReveal (v : View α) (s : State α) : State α :=
  if s.pendingReveals = 0 then s
  else revealCallback v { s with pendingReveals := s.pendingReveals - 1 }

/-- Lines 287-346; `now1` and `now2` are the values of the two `Date.now()`
calls of lines 343 and 344. -/
def animateCameraPanning (M : JsMath α) (now1 now2 : ℤ) (s : State α) : State α :=
  if s.isPanning then
    let s1 := { s with panningProgress := s.panningProgress + 0.015 }
    let s2 :=
      if s1.panningProgress ≥ 1 then
        let s2 := { s1 with panningProgress := 1, isPanning := false }
        if s2.isReturning then
          { s2 with
            isReturning := false
            isPanned := false
            controlsEnabled := true
            controlsEnableZoom := true
            scene :=
              if SceneObject.rectangleMesh ∈ s2.scene then sceneRemove s2.scene .rectangleMesh
              else s2.scene
            backButtonOpacity := "0"
            backButtonPointerEvents := "none"
            cursor := .retrocursor }
        else
          { s2 with
            isPanned := true
            controlsEnabled := false
            controlsEnableZoom := true
            pendingReveals := s2.pendingReveals + 1
            title := s2.title.map (fun _ => "0")
            subtitle := s2.subtitle.map (fun _ => "0") }
      else s1
    { s2 with
      cameraPosition := Vector3.lerpVectors s2.startPosition s2.targetPosition s2.panningProgress
      cameraLookAt :=
        ⟨if s2.isReturning then 0 else 0.0118, if s2.isReturning then 0.6 else 1.14, 0⟩ }
  else if !s.isPanned then
    { s with
      cameraPosition :=
        ⟨s.cameraPosition.x + M.sin ((now1 : α) * 0.001) * 0.001,
         s.cameraPosition.y + M.cos ((now2 : α) * 0.001) * 0.001,
         s.cameraPosition.z⟩ }
  else s

/-- Lines 200-208: the resize listener (the renderer calls change no variable
of the script). -/
def onResize (v : View α) (s : State α) : State α :=
  updateNavPosition v s

/-- What can happen to the script after start-up, with the inputs read. -/
inductive Event (α : Type) where
  | load (fileName : String) (r : LoadResult) (w : Window)
  | click (intersects : Nat)
  | goBack
  | tick (now1 now2 : ℤ)
  | reveal (v : View α)
  | resize (v : View α)

/-- One event handled. -/
def step (M : JsMath α) (e : Event α) (s : State α) : State α :=
  match e with
  | .load fileName r w => loadModel fileName r w s
  | .click intersects => click intersects s
  | .goBack => goBack s
  | .tick now1 now2 => animateCameraPanning M now1 now2 s
  | .reveal v => fireReveal v s
  | .resize v => onResize v s

/-- A sequence of events handled in order. -/
def run (M : JsMath α) (es : List (Event α)) (s : State α) : State α :=
  es.foldl (fun acc e => step M e acc) s

/-- States the script can be in: `run` of some events from `init`. -/
def Reachable (M : JsMath α) (dom : Dom α) (s : State α) : Prop :=
  ∃ es : List (Event α), s = run M es (init dom)

/-- The enum of the specification. -/
inductive TransitionState where
  | Idle
  | PanningIn
  | Panned
  | PanningOut
deriving DecidableEq

/-- The flag triple `(isPanning, isPanned, isReturning)`. -/
def flags (s : State α) : Bool × Bool × Bool :=
  (s.isPanning, s.isPanned, s.isReturning)

/-- The TransitionState a flag triple stands for, if any. -/
def transitionState (s : State α) : Option TransitionState :=
  match s.isPanning, s.isPanned, s.isReturning with
  | false, false, false => some .Idle
  | true, false, false => some .PanningIn
  | false, true, false => some .Panned
  | true, true, true => some .PanningOut
  | _, _, _ => none

/-- The pan variables a click or a back request may change. -/
def panState (s : State α) : Bool × Bool × Bool × α × Vector3 α × Vector3 α :=
  (s.isPanning, s.isPanned, s.isReturning, s.panningProgress, s.startPosition, s.targetPosition)

/-- The conversion of a point in normalized device coordinates to pixels in the
words of the specification: `x_px = (ndc.x·0.5+0.5)·W`,
`y_px = (1 - (ndc.y·0.5+0.5))·H`. -/
def specPixel (ndc : Vector3 α) (W H : α) : α × α :=
  ((ndc.x * 0.5 + 0.5) * W, (1 - (ndc.y * 0.5 + 0.5)) * H)

/-- The completions of a list of `loadModel` requests, in the order in which
the loader reports them. -/
def loadAll (ls : List (String × LoadResult × Window)) (s : State α) : State α :=
  ls.foldl (fun acc l => loadModel l.1 l.2.1 l.2.2 acc) s

/-- A sequence of `onModelLoaded` calls. -/
def onModelLoadedAll (ws : List Window) (s : State α) : State α :=
  ws.foldl (fun acc w => onModelLoaded w acc) s

/-- The load counter and the numbers of hook calls. -/
def counters (s : State α) : Nat × Nat × Nat :=
  (s.modelsLoaded, s.updateLoadingProgressCalls, s.threeJsLoadedCalls)

/-- A run of render-loop ticks, one per pair of `Date.now()` readings. -/
def tickEvents (clocks : List (ℤ × ℤ)) : List (Event α) :=
  clocks.map (fun c => Event.tick c.1 c.2)

/-- The look-target lines 340 passes to `camera.lookAt`, by the value of
`isReturning` at that line. -/
def lookTarget (returning : Bool) : Vector3 α :=
  ⟨if returning then 0 else 0.0118, if returning then 0.6 else 1.14, 0⟩

/-- The state of a pan in flight at progress `p`: the camera on the segment
from `startPosition` to `targetPosition`. -/
def panningAt (s : State α) (p : α) : State α :=
  { s with
    panningProgress := p
    cameraPosition := Vector3.lerpVectors s.startPosition s.targetPosition p
    cameraLookAt := lookTarget s.isReturning }

/-- The invariant of the pan variables: the flag triple is one of the four
combinations that stand for a TransitionState, progress is in `[0, 1]`, and a
pan in flight heads for the zoomed pose when entering and for the home pose when
returning. -/
def Inv (s : State α) : Prop :=
  (flags s = (false, false, false) ∨ flags s = (true, false, false) ∨
    flags s = (false, true, false) ∨ flags s = (true, true, true)) ∧
  0 ≤ s.panningProgress ∧ s.panningProgress ≤ 1 ∧
  (s.isPanning = true →
    s.targetPosition = if s.isReturning = true then originalPosition else zoomedPosition)

/-- Sample inputs for evaluating the handlers over `ℚ`: `Math.sin` and
`Math.cos` replaced by their values at 0. -/
def sampleMath : JsMath ℚ := ⟨fun _ => 0, fun _ => 1⟩

/-- A page with a `nav`, a `Title` and a `Subtitle` element. -/
def sampleDom : Dom ℚ :=
  { nav := some ⟨"0", "", none, none, none, none⟩, title := some "1", subtitle := some "1" }

/-- A viewport of 800 by 600 pixels whose projection keeps the local
coordinates. -/
def sampleView : View ℚ := ⟨fun c => c, 800, 600⟩

/-- The computer model loaded, no hook defined. -/
def sampleLoads : List (String × LoadResult × Window) :=
  [("8_bit_pc.glb", .gltf, ⟨false, false⟩)]

end Definitions

section Theorems

variable {α : Type} [LinearOrderedField α]

/-! ### Counting `onModelLoaded` calls -/

theorem counters_onModelLoaded (w : Window) (s : State α) :
    counters (onModelLoaded w s) =
      (s.modelsLoaded + 1,
       s.updateLoadingProgressCalls + (if w.updateLoadingProgress = true then 1 else 0),
       s.threeJsLoadedCalls +
         (if s.modelsLoaded + 1 = 7 ∧ w.threeJsLoaded = true then 1 else 0)) := by
  rcases hu : w.updateLoadingProgress with _ | _ <;>
  rcases ht : w.threeJsLoaded with _ | _ <;>
  by_cases h7 : s.modelsLoaded + 1 = 7 <;>
  simp [onModelLoaded, counters, modelsToLoad, hu, ht, h7]

theorem counters_loadModel (fileName : String) (r : LoadResult) (w : Window) (s : State α) :
    counters (loadModel fileName r w s) = counters (onModelLoaded w s) := by
  cases r
  · by_cases hf : fileName = "8_bit_pc.glb" <;>
      simp [loadModel, hf, counters_onModelLoaded]
  · simp [loadModel, counters_onModelLoaded]

theorem onModelLoadedAll_snoc (ws : List Window) (w : Window) (s : State α) :
    onModelLoadedAll (ws ++ [w]) s = onModelLoaded w (onModelLoadedAll ws s) := by
  simp [onModelLoadedAll, List.foldl_append]

theorem loadAll_snoc (ls : List (String × LoadResult × Window)) (l : String × LoadResult × Window)
    (s : State α) : loadAll (ls ++ [l]) s = loadModel l.1 l.2.1 l.2.2 (loadAll ls s) := by
  simp [loadAll, List.foldl_append]

theorem modelsLoaded_onModelLoadedAll (ws : List Window) (s : State α) :
    (onModelLoadedAll ws s).modelsLoaded = s.modelsLoaded + ws.length := by
  induction ws using List.reverseRecOn with
  | nil => simp [onModelLoadedAll]
  | append_singleton ws w ih =>
    have h := congrArg Prod.fst (counters_onModelLoaded w (onModelLoadedAll ws s))
    simp only [counters] at h
    rw [onModelLoadedAll_snoc, h, ih, List.length_append, List.length_singleton]
    omega

theorem counters_loadAll (ls : List (String × LoadResult × Window)) (s : State α) :
    counters (loadAll ls s) = counters (onModelLoadedAll (ls.map (fun l => l.2.2)) s) := by
  induction ls using List.reverseRecOn with
  | nil => simp [loadAll, onModelLoadedAll]
  | append_singleton ls l ih =>
    rw [loadAll_snoc, List.map_append, List.map_singleton, onModelLoadedAll_snoc,
      counters_loadModel, counters_onModelLoaded, counters_onModelLoaded]
    simp only [counters, Prod.mk.injEq] at ih
    rw [ih.1, ih.2.1, ih.2.2]

theorem threeJsLoadedCalls_snoc (ws : List Window) (w : Window) (dom : Dom α) :
    (onModelLoadedAll (ws ++ [w]) (init dom)).threeJsLoadedCalls =
      (onModelLoadedAll ws (init dom)).threeJsLoadedCalls +
        (if ws.length + 1 = 7 ∧ w.threeJsLoaded = true then 1 else 0) := by
  have h := congrArg (fun c => c.2.2) (counters_onModelLoaded w (onModelLoadedAll ws (init dom)))
  simp only [counters] at h
  rw [onModelLoadedAll_snoc, h, modelsLoaded_onModelLoadedAll]
  simp [init]

theorem threeJsLoadedCalls_total (ws : List Window) (dom : Dom α)
    (hws : ∀ x ∈ ws, x.threeJsLoaded = true) :
    (onModelLoadedAll ws (init dom)).threeJsLoadedCalls = if 7 ≤ ws.length then 1 else 0 := by
  induction ws using List.reverseRecOn with
  | nil => simp [onModelLoadedAll, init]
  | append_singleton ws w ih =>
    have hw : w.threeJsLoaded = true := hws w (by simp)
    rw [threeJsLoadedCalls_snoc, ih (fun x hx => hws x (by simp [hx])), hw,
      List.length_append, List.length_singleton]
    by_cases h6 : ws.length + 1 = 7
    · have : ¬ 7 ≤ ws.length := by omega
      simp [h6, this]
    · by_cases h7 : 7 ≤ ws.length
      · have : 7 ≤ ws.length + 1 := by omega
        simp [h6, h7, this]
      · have : ¬ 7 ≤ ws.length + 1 := by omega
        simp [h6, h7, this]

/-! ### One tick of `animateCameraPanning` -/

theorem lerpVectors_zero (a b : Vector3 α) : Vector3.lerpVectors a b 0 = a := by
  ext <;> simp [Vector3.lerpVectors]

theorem lerpVectors_one (a b : Vector3 α) : Vector3.lerpVectors a b 1 = b := by
  ext <;> simp [Vector3.lerpVectors]

/-- A tick of a pan that stays below 1 only moves progress and camera. -/
theorem animate_inFlight (M : JsMath α) (now1 now2 : ℤ) (s : State α)
    (hp : s.isPanning = true) (h : s.panningProgress + 0.015 < 1) :
    animateCameraPanning M now1 now2 s = panningAt s (s.panningProgress + 0.015) := by
  have h' : ¬ (1 ≤ s.panningProgress + 0.015) := not_le.2 h
  simp [animateCameraPanning, panningAt, lookTarget, hp, h']

/-- The tick that completes an entering pan. -/
theorem animate_completeIn (M : JsMath α) (now1 now2 : ℤ) (s : State α)
    (hp : s.isPanning = true) (hr : s.isReturning = false)
    (h : 1 ≤ s.panningProgress + 0.015) :
    animateCameraPanning M now1 now2 s =
      { s with
        panningProgress := 1
        isPanning := false
        isPanned := true
        controlsEnabled := false
        controlsEnableZoom := true
        pendingReveals := s.pendingReveals + 1
        title := s.title.map (fun _ => "0")
        subtitle := s.subtitle.map (fun _ => "0")
        cameraPosition := s.targetPosition
        cameraLookAt := ⟨0.0118, 1.14, 0⟩ } := by
  simp [animateCameraPanning, hp, hr, h, lerpVectors_one]

/-- The tick that completes a returning pan. -/
theorem animate_completeOut (M : JsMath α) (now1 now2 : ℤ) (s : State α)
    (hp : s.isPanning = true) (hr : s.isReturning = true)
    (h : 1 ≤ s.panningProgress + 0.015) :
    animateCameraPanning M now1 now2 s =
      { s with
        panningProgress := 1
        isPanning := false
        isReturning := false
        isPanned := false
        controlsEnabled := true
        controlsEnableZoom := true
        scene := sceneRemove s.scene .rectangleMesh
        backButtonOpacity := "0"
        backButtonPointerEvents := "none"
        cursor := .retrocursor
        cameraPosition := s.targetPosition
        cameraLookAt := ⟨0.0118, 1.14, 0⟩ } := by
  by_cases hm : SceneObject.rectangleMesh ∈ s.scene
  · simp [animateCameraPanning, hp, hr, h, lerpVectors_one, hm]
  · have : sceneRemove s.scene .rectangleMesh = s.scene := by
      simp only [sceneRemove, List.filter_eq_self]
      intro o ho
      simp only [ne_eq, decide_not, Bool.not_eq_eq_eq_not, Bool.not_true, decide_eq_false_iff_not]
      rintro rfl
      exact hm ho
    simp [animateCameraPanning, hp, hr, h, lerpVectors_one, hm, this]

theorem panningAt_panningAt (s : State α) (p q : α) :
    panningAt (panningAt s p) q = panningAt s q := rfl

theorem run_nil (M : JsMath α) (s : State α) : run M [] s = s := rfl

theorem run_cons (M : JsMath α) (e : Event α) (es : List (Event α)) (s : State α) :
    run M (e :: es) s = run M es (step M e s) := rfl

theorem run_append (M : JsMath α) (es1 es2 : List (Event α)) (s : State α) :
    run M (es1 ++ es2) s = run M es2 (run M es1 s) := by
  simp [run, List.foldl_append]

theorem run_ticks_panningAt (M : JsMath α) (cs : List (ℤ × ℤ)) (s : State α) (p : α)
    (hp : s.isPanning = true) (h : p + (cs.length : α) * 0.015 < 1) :
    run M (tickEvents cs) (panningAt s p) = panningAt s (p + (cs.length : α) * 0.015) := by
  induction cs generalizing p with
  | nil => simp [tickEvents, run_nil]
  | cons c cs ih =>
    have hlen : ((c :: cs).length : α) = (cs.length : α) + 1 := by simp
    rw [hlen] at h ⊢
    have hnn : (0 : α) ≤ (cs.length : α) * 0.015 := by positivity
    have h1 : (panningAt s p).panningProgress + 0.015 < 1 := by
      show p + 0.015 < 1
      linarith
    have hstep : step M (Event.tick c.1 c.2) (panningAt s p) = panningAt s (p + 0.015) := by
      show animateCameraPanning M c.1 c.2 (panningAt s p) = _
      rw [animate_inFlight M c.1 c.2 (panningAt s p) hp h1]
      rfl
    have h2 : p + 0.015 + (cs.length : α) * 0.015 < 1 := by linarith
    show run M (Event.tick c.1 c.2 :: tickEvents cs) (panningAt s p) = _
    rw [run_cons, hstep, ih (p + 0.015) h2]
    congr 1
    ring

/-- Ticks of a pan in flight, as long as progress stays below 1. -/
theorem run_ticks_inFlight (M : JsMath α) (cs : List (ℤ × ℤ)) (s : State α)
    (hp : s.isPanning = true) (hne : cs ≠ [])
    (h : s.panningProgress + (cs.length : α) * 0.015 < 1) :
    run M (tickEvents cs) s = panningAt s (s.panningProgress + (cs.length : α) * 0.015) := by
  cases cs with
  | nil => exact absurd rfl hne
  | cons c cs =>
    have hlen : ((c :: cs).length : α) = (cs.length : α) + 1 := by simp
    rw [hlen] at h ⊢
    have hnn : (0 : α) ≤ (cs.length : α) * 0.015 := by positivity
    have h1 : s.panningProgress + 0.015 < 1 := by linarith
    have h2 : s.panningProgress + 0.015 + (cs.length : α) * 0.015 < 1 := by linarith
    show run M (Event.tick c.1 c.2 :: tickEvents cs) s = _
    rw [run_cons]
    show run M (tickEvents cs) (animateCameraPanning M c.1 c.2 s) = _
    rw [animate_inFlight M c.1 c.2 s hp h1, run_ticks_panningAt M cs s _ hp h2]
    congr 1
    ring

/-- A pan that starts at progress 0 is still in flight after 66 ticks, at
progress 0.99, and the 67th tick is the one that meets `panningProgress >= 1`. -/
theorem run_ticks_67 (M : JsMath α) (cs : List (ℤ × ℤ)) (s : State α)
    (hp : s.isPanning = true) (h0 : s.panningProgress = 0) (hlen : cs.length = 67) :
    ∃ c : ℤ × ℤ, run M (tickEvents cs) s =
      animateCameraPanning M c.1 c.2 (panningAt s 0.99) := by
  have hsplit : cs = cs.take 66 ++ cs.drop 66 := (List.take_append_drop 66 cs).symm
  have htake : (cs.take 66).length = 66 := by simp [hlen]
  have hdrop : (cs.drop 66).length = 1 := by simp [hlen]
  obtain ⟨c, hc⟩ := List.length_eq_one.1 hdrop
  refine ⟨c, ?_⟩
  have hne : cs.take 66 ≠ [] := by
    intro h
    rw [h] at htake
    simp at htake
  have hlt : s.panningProgress + ((cs.take 66).length : α) * 0.015 < 1 := by
    rw [h0, htake]
    norm_num
  have hrun := run_ticks_inFlight M (cs.take 66) s hp hne hlt
  rw [h0, htake] at hrun
  have e99 : (0 : α) + ((66 : ℕ) : α) * 0.015 = 0.99 := by norm_num
  rw [e99] at hrun
  rw [hsplit, hc]
  show run M (List.map _ (cs.take 66 ++ [c])) s = _
  rw [List.map_append, run_append]
  show run M [Event.tick c.1 c.2] (run M (tickEvents (cs.take 66)) s) = _
  rw [hrun]
  rfl

/-! ### Frame lemmas and the invariant -/

theorem panState_onModelLoaded (w : Window) (s : State α) :
    panState (onModelLoaded w s) = panState s := by
  unfold onModelLoaded
  simp only
  split_ifs <;> rfl

theorem panState_loadModel (fileName : String) (r : LoadResult) (w : Window) (s : State α) :
    panState (loadModel fileName r w s) = panState s := by
  cases r
  · simp only [loadModel, panState_onModelLoaded]
    split_ifs <;> rfl
  · simp only [loadModel, panState_onModelLoaded]
    rfl

theorem panState_updateNavPosition (v : View α) (s : State α) :
    panState (updateNavPosition v s) = panState s := by
  unfold updateNavPosition
  split_ifs <;> rfl

theorem panState_fireReveal (v : View α) (s : State α) :
    panState (fireReveal v s) = panState s := by
  unfold fireReveal
  split_ifs
  · rfl
  · simp only [revealCallback]
    exact panState_updateNavPosition v _

theorem click_eq (intersects : Nat) (s : State α) :
    click intersects s =
      (if s.computerModel.isSome = true ∧ s.isPanning = false ∧ s.isPanned = false ∧
          0 < intersects then
        { s with
          targetPosition := zoomedPosition
          startPosition := s.cameraPosition
          isPanning := true
          panningProgress := 0 }
      else s) := by
  rcases hm : s.computerModel.isSome with _ | _ <;>
  rcases hp : s.isPanning with _ | _ <;>
  rcases hd : s.isPanned with _ | _ <;>
  rcases Nat.eq_zero_or_pos intersects with hi | hi <;>
  simp [click, hm, hp, hd, hi]

theorem goBack_eq (s : State α) :
    goBack s =
      (if s.isPanned = true ∧ s.isReturning = false then
        { s with
          targetPosition := originalPosition
          startPosition := s.cameraPosition
          isReturning := true
          isPanning := true
          panningProgress := 0
          nav := s.nav.map (fun n => { n with opacity := "0" })
          scene := sceneRemove s.scene .rectangleMesh
          title := s.title.map (fun _ => "1")
          subtitle := s.subtitle.map (fun _ => "1")
          cursor := .retrocursor }
      else s) := by
  rcases hd : s.isPanned with _ | _ <;> rcases hr : s.isReturning with _ | _ <;>
    simp [goBack, hd, hr]

theorem animate_idle (M : JsMath α) (now1 now2 : ℤ) (s : State α)
    (hp : s.isPanning = false) (hd : s.isPanned = false) :
    animateCameraPanning M now1 now2 s =
      { s with
        cameraPosition :=
          ⟨s.cameraPosition.x + M.sin ((now1 : α) * 0.001) * 0.001,
           s.cameraPosition.y + M.cos ((now2 : α) * 0.001) * 0.001,
           s.cameraPosition.z⟩ } := by
  simp [animateCameraPanning, hp, hd]

theorem animate_panned (M : JsMath α) (now1 now2 : ℤ) (s : State α)
    (hp : s.isPanning = false) (hd : s.isPanned = true) :
    animateCameraPanning M now1 now2 s = s := by
  simp [animateCameraPanning, hp, hd]

theorem flags_cases (s : State α) (h : Inv s) :
    (s.isPanning = false ∧ s.isPanned = false ∧ s.isReturning = false) ∨
    (s.isPanning = true ∧ s.isPanned = false ∧ s.isReturning = false) ∨
    (s.isPanning = false ∧ s.isPanned = true ∧ s.isReturning = false) ∨
    (s.isPanning = true ∧ s.isPanned = true ∧ s.isReturning = true) := by
  rcases h.1 with h | h | h | h <;> simp only [flags, Prod.mk.injEq] at h <;> simp [h]

theorem inv_of_panState (s t : State α) (h : panState t = panState s) (hs : Inv s) : Inv t := by
  simp only [panState, Prod.mk.injEq] at h
  obtain ⟨h1, h2, h3, h4, _, h6⟩ := h
  simpa only [Inv, flags, h1, h2, h3, h4, h6] using hs

theorem inv_init (dom : Dom α) : Inv (init dom) := by
  simp [Inv, init, flags]

theorem inv_animate (M : JsMath α) (now1 now2 : ℤ) (s : State α) (hs : Inv s) :
    Inv (animateCameraPanning M now1 now2 s) := by
  have hs0 := hs
  obtain ⟨_, h0, h1, ht⟩ := hs
  rcases flags_cases s hs0 with ⟨hp, hd, hr⟩ | ⟨hp, hd, hr⟩ | ⟨hp, hd, hr⟩ | ⟨hp, hd, hr⟩
  · rw [animate_idle M now1 now2 s hp hd]
    simp [Inv, flags, hp, hd, hr, h0, h1]
  · by_cases hc : 1 ≤ s.panningProgress + 0.015
    · rw [animate_completeIn M now1 now2 s hp hr hc]
      simp [Inv, flags, hd, hr]
    · rw [animate_inFlight M now1 now2 s hp (not_le.1 hc)]
      have h3 : (0 : α) ≤ 0.015 := by norm_num
      refine ⟨by simp [flags, panningAt, hp, hd, hr], ?_, ?_, ?_⟩
      · show 0 ≤ s.panningProgress + 0.015
        linarith
      · show s.panningProgress + 0.015 ≤ 1
        exact le_of_lt (not_le.1 hc)
      · intro _
        exact ht hp
  · rw [animate_panned M now1 now2 s hp hd]
    exact hs0
  · by_cases hc : 1 ≤ s.panningProgress + 0.015
    · rw [animate_completeOut M now1 now2 s hp hr hc]
      simp [Inv, flags]
    · rw [animate_inFlight M now1 now2 s hp (not_le.1 hc)]
      have h3 : (0 : α) ≤ 0.015 := by norm_num
      refine ⟨by simp [flags, panningAt, hp, hd, hr], ?_, ?_, ?_⟩
      · show 0 ≤ s.panningProgress + 0.015
        linarith
      · show s.panningProgress + 0.015 ≤ 1
        exact le_of_lt (not_le.1 hc)
      · intro _
        exact ht hp

theorem inv_click (intersects : Nat) (s : State α) (hs : Inv s) : Inv (click intersects s) := by
  rw [click_eq]
  split_ifs with hc
  · obtain ⟨_, hp, hd, _⟩ := hc
    rcases flags_cases s hs with ⟨_, _, hr⟩ | ⟨hp2, _, _⟩ | ⟨_, hd2, _⟩ | ⟨hp2, _, _⟩
    · simp [Inv, flags, hd, hr]
    · simp [hp] at hp2
    · simp [hd] at hd2
    · simp [hp] at hp2
  · exact hs

theorem inv_goBack (s : State α) (hs : Inv s) : Inv (goBack s) := by
  rw [goBack_eq]
  split_ifs with hc
  · simp [Inv, flags, hc.1]
  · exact hs

theorem inv_step (M : JsMath α) (e : Event α) (s : State α) (hs : Inv s) : Inv (step M e s) := by
  cases e with
  | load fileName r w => exact inv_of_panState s _ (panState_loadModel fileName r w s) hs
  | click intersects => exact inv_click intersects s hs
  | goBack => exact inv_goBack s hs
  | tick now1 now2 => exact inv_animate M now1 now2 s hs
  | reveal v => exact inv_of_panState s _ (panState_fireReveal v s) hs
  | resize v => exact inv_of_panState s _ (panState_updateNavPosition v s) hs

theorem inv_run (M : JsMath α) (es : List (Event α)) (s : State α) (hs : Inv s) :
    Inv (run M es s) := by
  induction es generalizing s with
  | nil => exact hs
  | cons e es ih => exact ih (step M e s) (inv_step M e s hs)

theorem inv_reachable (M : JsMath α) (dom : Dom α) (s : State α) (h : Reachable M dom s) :
    Inv s := by
  obtain ⟨es, rfl⟩ := h
  exact inv_run M es _ (inv_init dom)

theorem flags_of_panState (s t : State α) (h : panState t = panState s) : flags t = flags s := by
  simp only [panState, Prod.mk.injEq] at h
  simp [flags, h.1, h.2.1, h.2.2.1]

theorem panState_step_of_panning (M : JsMath α) (e : Event α) (s : State α) (hs : Inv s)
    (hp : s.isPanning = true) (he : ∀ a b, e ≠ Event.tick a b) :
    panState (step M e s) = panState s := by
  cases e with
  | load fileName r w => exact panState_loadModel fileName r w s
  | click intersects =>
    show panState (click intersects s) = _
    rw [click_eq]
    simp [hp]
  | goBack =>
    show panState (goBack s) = _
    rw [goBack_eq]
    rcases flags_cases s hs with ⟨h1, _, _⟩ | ⟨_, hd, _⟩ | ⟨h1, _, _⟩ | ⟨_, _, hr⟩
    · simp [hp] at h1
    · simp [hd]
    · simp [hp] at h1
    · simp [hr]
  | tick now1 now2 => exact absurd rfl (he now1 now2)
  | reveal v => exact panState_fireReveal v s
  | resize v => exact panState_updateNavPosition v s

/-! ### Whole pans -/

theorem mem_sceneRemove (children : List SceneObject) (a b : SceneObject) :
    a ∈ sceneRemove children b ↔ a ∈ children ∧ a ≠ b := by
  simp [sceneRemove]

theorem mem_sceneAdd (children : List SceneObject) (a b : SceneObject) :
    a ∈ sceneAdd children b ↔ (a ∈ children ∧ a ≠ b) ∨ a = b := by
  simp [sceneAdd, sceneRemove]

/-- A click that hits in Idle followed by 67 ticks. -/
theorem run_panIn (M : JsMath α) (n : Nat) (cs : List (ℤ × ℤ)) (s : State α)
    (hm : s.computerModel.isSome = true) (hp : s.isPanning = false) (hd : s.isPanned = false)
    (hr : s.isReturning = false) (hn : 0 < n) (hlen : cs.length = 67) :
    run M (tickEvents cs) (click n s) =
      { s with
        targetPosition := zoomedPosition
        startPosition := s.cameraPosition
        panningProgress := 1
        isPanning := false
        isPanned := true
        controlsEnabled := false
        controlsEnableZoom := true
        pendingReveals := s.pendingReveals + 1
        title := s.title.map (fun _ => "0")
        subtitle := s.subtitle.map (fun _ => "0")
        cameraPosition := zoomedPosition
        cameraLookAt := ⟨0.0118, 1.14, 0⟩ } := by
  have hclick : click n s = { s with
      targetPosition := zoomedPosition
      startPosition := s.cameraPosition
      isPanning := true
      panningProgress := 0 } := by
    rw [click_eq, if_pos ⟨hm, hp, hd, hn⟩]
  obtain ⟨c, hc⟩ := run_ticks_67 M cs (click n s) (by rw [hclick]) (by rw [hclick]) hlen
  rw [hc, animate_completeIn M c.1 c.2 _ (by rw [hclick]; rfl) (by rw [hclick]; exact hr)
    (by show (1 : α) ≤ 0.99 + 0.015; norm_num), hclick]
  rfl

/-- A click that hits in Idle followed by 66 ticks. -/
theorem run_panIn_66 (M : JsMath α) (n : Nat) (cs : List (ℤ × ℤ)) (s : State α)
    (hm : s.computerModel.isSome = true) (hp : s.isPanning = false) (hd : s.isPanned = false)
    (hn : 0 < n) (hlen : cs.length = 66) :
    run M (tickEvents cs) (click n s) = panningAt (click n s) 0.99 := by
  have hclick : click n s = { s with
      targetPosition := zoomedPosition
      startPosition := s.cameraPosition
      isPanning := true
      panningProgress := 0 } := by
    rw [click_eq, if_pos ⟨hm, hp, hd, hn⟩]
  have hne : cs ≠ [] := by
    intro h
    rw [h] at hlen
    simp at hlen
  have h0 : (click n s).panningProgress = 0 := by rw [hclick]
  rw [run_ticks_inFlight M cs (click n s) (by rw [hclick]) hne (by rw [h0, hlen]; norm_num),
    h0, hlen]
  congr 1
  norm_num

/-- A back request in Panned followed by 67 ticks. -/
theorem run_panOut (M : JsMath α) (cs : List (ℤ × ℤ)) (s : State α)
    (hd : s.isPanned = true) (hr : s.isReturning = false) (hlen : cs.length = 67) :
    run M (tickEvents cs) (goBack s) =
      { s with
        targetPosition := originalPosition
        startPosition := s.cameraPosition
        panningProgress := 1
        isPanning := false
        isReturning := false
        isPanned := false
        controlsEnabled := true
        controlsEnableZoom := true
        nav := s.nav.map (fun n => { n with opacity := "0" })
        scene := sceneRemove (sceneRemove s.scene .rectangleMesh) .rectangleMesh
        title := s.title.map (fun _ => "1")
        subtitle := s.subtitle.map (fun _ => "1")
        backButtonOpacity := "0"
        backButtonPointerEvents := "none"
        cursor := .retrocursor
        cameraPosition := originalPosition
        cameraLookAt := ⟨0.0118, 1.14, 0⟩ } := by
  have hback : goBack s = { s with
      targetPosition := originalPosition
      startPosition := s.cameraPosition
      isReturning := true
      isPanning := true
      panningProgress := 0
      nav := s.nav.map (fun n => { n with opacity := "0" })
      scene := sceneRemove s.scene .rectangleMesh
      title := s.title.map (fun _ => "1")
      subtitle := s.subtitle.map (fun _ => "1")
      cursor := .retrocursor } := by
    rw [goBack_eq, if_pos ⟨hd, hr⟩]
  obtain ⟨c, hc⟩ := run_ticks_67 M cs (goBack s) (by rw [hback]) (by rw [hback]) hlen
  rw [hc, animate_completeOut M c.1 c.2 _ (by rw [hback]; rfl) (by rw [hback]; rfl)
    (by show (1 : α) ≤ 0.99 + 0.015; norm_num), hback]
  rfl

/-- A back request in Panned followed by 66 ticks. -/
theorem run_panOut_66 (M : JsMath α) (cs : List (ℤ × ℤ)) (s : State α)
    (hd : s.isPanned = true) (hr : s.isReturning = false) (hlen : cs.length = 66) :
    run M (tickEvents cs) (goBack s) = panningAt (goBack s) 0.99 := by
  have hback : (goBack s).isPanning = true ∧ (goBack s).panningProgress = 0 := by
    rw [goBack_eq, if_pos ⟨hd, hr⟩]
    exact ⟨rfl, rfl⟩
  have hne : cs ≠ [] := by
    intro h
    rw [h] at hlen
    simp at hlen
  rw [run_ticks_inFlight M cs (goBack s) hback.1 hne (by rw [hback.2, hlen]; norm_num),
    hback.2, hlen]
  congr 1
  norm_num

theorem loadModel_frame (fileName : String) (r : LoadResult) (w : Window) (s : State α) :
    (loadModel fileName r w s).nav = s.nav ∧ (loadModel fileName r w s).title = s.title ∧
    (loadModel fileName r w s).subtitle = s.subtitle ∧
    (SceneObject.rectangleMesh ∈ (loadModel fileName r w s).scene ↔
      SceneObject.rectangleMesh ∈ s.scene) := by
  cases r
  · simp only [loadModel, onModelLoaded]
    split_ifs <;> simp [mem_sceneAdd]
  · simp only [loadModel, onModelLoaded]
    split_ifs <;> simp

theorem loadAll_frame (ls : List (String × LoadResult × Window)) (s : State α) :
    panState (loadAll ls s) = panState s ∧
    (loadAll ls s).nav = s.nav ∧ (loadAll ls s).title = s.title ∧
    (loadAll ls s).subtitle = s.subtitle ∧
    (SceneObject.rectangleMesh ∈ (loadAll ls s).scene ↔ SceneObject.rectangleMesh ∈ s.scene) := by
  induction ls using List.reverseRecOn with
  | nil => simp [loadAll]
  | append_singleton ls l ih =>
    rw [loadAll_snoc]
    obtain ⟨h1, h2, h3, h4, h5⟩ := ih
    obtain ⟨g2, g3, g4, g5⟩ := loadModel_frame l.1 l.2.1 l.2.2 (loadAll ls s)
    exact ⟨(panState_loadModel _ _ _ _).trans h1, g2.trans h2, g3.trans h3, g4.trans h4,
      g5.trans h5⟩

/-- The state after a completed entering pan and the firing of its reveal. -/
theorem fireReveal_after_panIn (M : JsMath α) (n : Nat) (cs : List (ℤ × ℤ)) (v : View α)
    (s : State α) (hm : s.computerModel.isSome = true) (hp : s.isPanning = false)
    (hd : s.isPanned = false) (hr : s.isReturning = false) (hn : 0 < n)
    (hlen : cs.length = 67) :
    (fireReveal v (run M (tickEvents cs) (click n s))).isPanning = false ∧
    (fireReveal v (run M (tickEvents cs) (click n s))).isPanned = true ∧
    (fireReveal v (run M (tickEvents cs) (click n s))).isReturning = false ∧
    (fireReveal v (run M (tickEvents cs) (click n s))).controlsEnabled = false ∧
    SceneObject.rectangleMesh ∈ (fireReveal v (run M (tickEvents cs) (click n s))).scene ∧
    (fireReveal v (run M (tickEvents cs) (click n s))).nav.map (fun x => x.opacity) =
      s.nav.map (fun _ => "1") ∧
    (fireReveal v (run M (tickEvents cs) (click n s))).title = s.title.map (fun _ => "0") := by
  rw [run_panIn M n cs s hm hp hd hr hn hlen]
  simp only [fireReveal, revealCallback, updateNavPosition]
  simp [hr, mem_sceneAdd]
  cases s.nav <;> simp

/-- A reveal that fires after a back request: the rectangle is attached while
the return is in flight. -/
theorem fireReveal_after_goBack (v : View α) (s : State α) (hd : s.isPanned = true)
    (hr : s.isReturning = false) (hpend : 0 < s.pendingReveals) :
    SceneObject.rectangleMesh ∈ (fireReveal v (goBack s)).scene ∧
    (fireReveal v (goBack s)).isPanning = true ∧
    (fireReveal v (goBack s)).isPanned = true ∧
    (fireReveal v (goBack s)).isReturning = true ∧
    (fireReveal v (goBack s)).nav.map (fun x => x.opacity) = s.nav.map (fun _ => "1") ∧
    (fireReveal v (goBack s)).backButtonOpacity = "1" := by
  rw [goBack_eq, if_pos ⟨hd, hr⟩]
  have hne : s.pendingReveals ≠ 0 := Nat.pos_iff_ne_zero.1 hpend
  simp only [fireReveal, revealCallback, updateNavPosition]
  simp [hne, hd, mem_sceneAdd]
  cases s.nav <;> simp

/-- A reveal that fires when neither `isPanned` nor a pan holds: the rectangle
is attached and stays, the flags are untouched. -/
theorem fireReveal_idle (v : View α) (s : State α) (hd : s.isPanned = false)
    (hpend : 0 < s.pendingReveals) :
    SceneObject.rectangleMesh ∈ (fireReveal v s).scene ∧ flags (fireReveal v s) = flags s ∧
    (fireReveal v s).nav.map (fun x => x.opacity) = s.nav.map (fun _ => "1") ∧
    (fireReveal v s).backButtonOpacity = "1" := by
  have hne : s.pendingReveals ≠ 0 := Nat.pos_iff_ne_zero.1 hpend
  simp only [fireReveal, revealCallback, updateNavPosition]
  simp [hne, hd, mem_sceneAdd, flags]
  cases s.nav <;> simp

/-- What the whole entering pan leaves behind: Panned, a reveal pending. -/
theorem run_panIn_facts (M : JsMath α) (n : Nat) (cs : List (ℤ × ℤ)) (s : State α)
    (hm : s.computerModel.isSome = true) (hp : s.isPanning = false) (hd : s.isPanned = false)
    (hr : s.isReturning = false) (hn : 0 < n) (hlen : cs.length = 67) :
    (run M (tickEvents cs) (click n s)).isPanned = true ∧
    (run M (tickEvents cs) (click n s)).isReturning = false ∧
    0 < (run M (tickEvents cs) (click n s)).pendingReveals ∧
    (run M (tickEvents cs) (click n s)).nav = s.nav := by
  rw [run_panIn M n cs s hm hp hd hr hn hlen]
  exact ⟨rfl, hr, Nat.succ_pos _, rfl⟩

/-- What the whole returning pan leaves behind: Idle, the pending reveals still
pending. -/
theorem run_panOut_facts (M : JsMath α) (cs : List (ℤ × ℤ)) (s : State α)
    (hd : s.isPanned = true) (hr : s.isReturning = false) (hlen : cs.length = 67) :
    flags (run M (tickEvents cs) (goBack s)) = (false, false, false) ∧
    (run M (tickEvents cs) (goBack s)).pendingReveals = s.pendingReveals := by
  rw [run_panOut M cs s hd hr hlen]
  exact ⟨rfl, rfl⟩

/-! ### The click listener and `goBack` -/

/-- C1. The click listener, for every state and every number of intersections:
the pan variables change exactly when `computerModel` is set, `isPanning` and
`isPanned` are false and the ray hits; then the state is the old one with
`targetPosition` the zoomed pose, `startPosition` the camera position,
`isPanning` true and `panningProgress` 0.  In every other case the whole state
is unchanged.  The listener is a total function: it raises no error. -/
theorem click_contract (intersects : Nat) (s : State α) :
    (panState (click intersects s) ≠ panState s ↔
      (s.computerModel.isSome = true ∧ s.isPanning = false ∧ s.isPanned = false ∧
        0 < intersects)) ∧
    click intersects s =
      (if s.computerModel.isSome = true ∧ s.isPanning = false ∧ s.isPanned = false ∧
          0 < intersects then
        { s with
          targetPosition := ⟨0.0118, 1.14, 0.6⟩
          startPosition := s.cameraPosition
          isPanning := true
          panningProgress := 0 }
      else s) := by
  rcases hm : s.computerModel.isSome with _ | _ <;>
  rcases hp : s.isPanning with _ | _ <;>
  rcases hd : s.isPanned with _ | _ <;>
  rcases Nat.eq_zero_or_pos intersects with hi | hi <;>
  simp [click, panState, hm, hp, hd, hi, zoomedPosition]

/-- C2. `goBack`, for every state: with `isPanned` true and `isReturning` false
the state becomes the old one with `targetPosition` the home pose,
`startPosition` the camera position, `panningProgress` 0, `isPanning` and
`isReturning` true, the opacity of `nav` (when the element exists) "0", the
rectangle out of the scene, and the opacity of `Title` and `Subtitle` (when they
exist) "1"; otherwise the whole state is unchanged. -/
theorem goBack_contract (s : State α) :
    (s.isPanned = true ∧ s.isReturning = false →
      (goBack s).targetPosition = ⟨1.4, 1.1, 1.8⟩ ∧
      (goBack s).startPosition = s.cameraPosition ∧
      (goBack s).panningProgress = 0 ∧
      (goBack s).isPanning = true ∧
      (goBack s).isReturning = true ∧
      (goBack s).isPanned = true ∧
      (goBack s).nav = s.nav.map (fun n => { n with opacity := "0" }) ∧
      SceneObject.rectangleMesh ∉ (goBack s).scene ∧
      (∀ o, o ≠ SceneObject.rectangleMesh → (o ∈ (goBack s).scene ↔ o ∈ s.scene)) ∧
      (goBack s).title = s.title.map (fun _ => "1") ∧
      (goBack s).subtitle = s.subtitle.map (fun _ => "1") ∧
      (goBack s).cameraPosition = s.cameraPosition ∧
      (goBack s).controlsEnabled = s.controlsEnabled ∧
      (goBack s).pendingReveals = s.pendingReveals) ∧
    (¬ (s.isPanned = true ∧ s.isReturning = false) → goBack s = s) := by
  constructor
  · rintro ⟨h1, h2⟩
    simp only [goBack, h1, h2, originalPosition, sceneRemove]
    simp
    intro o ho _
    exact ho
  · intro h
    rcases hd : s.isPanned with _ | _ <;> rcases hr : s.isReturning with _ | _ <;>
      simp_all [goBack]

/-- Evaluation at sample inputs: a back request in a Panned state of a page
without `nav`, and one in the initial state. -/
theorem goBack_contract_witness :
    (goBack { init (⟨none, some "0", none⟩ : Dom ℚ) with isPanned := true }).isPanning = true ∧
    (goBack { init (⟨none, some "0", none⟩ : Dom ℚ) with isPanned := true }).title = some "1" ∧
    goBack (init (⟨none, some "0", none⟩ : Dom ℚ)) = init ⟨none, some "0", none⟩ := by
  have h := goBack_contract { init (⟨none, some "0", none⟩ : Dom ℚ) with isPanned := true }
  have h2 := goBack_contract (init (⟨none, some "0", none⟩ : Dom ℚ))
  exact ⟨(h.1 ⟨rfl, rfl⟩).2.2.2.1, (h.1 ⟨rfl, rfl⟩).2.2.2.2.2.2.2.2.2.1,
    h2.2 (by simp [init])⟩

/-! ### The transition system -/

/-- C5. In every state reachable from the initial state by load completions,
clicks (hit or miss), back requests, ticks, reveal firings and resizes, the flag
triple `(isPanning, isPanned, isReturning)` is one of the four combinations
Idle `(false, false, false)`, PanningIn `(true, false, false)`, Panned
`(false, true, false)`, PanningOut `(true, true, true)`; and an event either
leaves the triple as it is or is one of: a click taking Idle to PanningIn, a
tick taking PanningIn to Panned, a back request taking Panned to PanningOut, a
tick taking PanningOut to Idle. -/
theorem transitionState_contract (M : JsMath α) (dom : Dom α) (s : State α)
    (hs : Reachable M dom s) :
    (flags s = (false, false, false) ∨ flags s = (true, false, false) ∨
      flags s = (false, true, false) ∨ flags s = (true, true, true)) ∧
    (∃ q, transitionState s = some q) ∧
    ∀ e : Event α,
      flags (step M e s) = flags s ∨
      (transitionState s = some .Idle ∧ (∃ n, e = Event.click n) ∧
        transitionState (step M e s) = some .PanningIn) ∨
      (transitionState s = some .PanningIn ∧ (∃ a b, e = Event.tick a b) ∧
        transitionState (step M e s) = some .Panned) ∨
      (transitionState s = some .Panned ∧ e = Event.goBack ∧
        transitionState (step M e s) = some .PanningOut) ∨
      (transitionState s = some .PanningOut ∧ (∃ a b, e = Event.tick a b) ∧
        transitionState (step M e s) = some .Idle) := by
  have hinv := inv_reachable M dom s hs
  refine ⟨hinv.1, ?_, ?_⟩
  · rcases flags_cases s hinv with ⟨hp, hd, hr⟩ | ⟨hp, hd, hr⟩ | ⟨hp, hd, hr⟩ | ⟨hp, hd, hr⟩ <;>
      simp [transitionState, hp, hd, hr]
  · intro e
    cases e with
    | load fileName r w =>
      exact Or.inl (flags_of_panState s _ (panState_loadModel fileName r w s))
    | reveal v => exact Or.inl (flags_of_panState s _ (panState_fireReveal v s))
    | resize v => exact Or.inl (flags_of_panState s _ (panState_updateNavPosition v s))
    | click intersects =>
      simp only [step]
      rw [click_eq]
      split_ifs with hc
      · obtain ⟨_, hp, hd, _⟩ := hc
        rcases flags_cases s hinv with ⟨_, _, hr⟩ | ⟨hp2, _, _⟩ | ⟨_, hd2, _⟩ | ⟨hp2, _, _⟩
        · right; left
          exact ⟨by simp [transitionState, hp, hd, hr], ⟨intersects, rfl⟩,
            by simp [transitionState, hd, hr]⟩
        · simp [hp] at hp2
        · simp [hd] at hd2
        · simp [hp] at hp2
      · exact Or.inl rfl
    | goBack =>
      simp only [step]
      rw [goBack_eq]
      split_ifs with hc
      · obtain ⟨hd, hr⟩ := hc
        rcases flags_cases s hinv with ⟨_, hd2, _⟩ | ⟨_, hd2, _⟩ | ⟨hp, _, _⟩ | ⟨_, _, hr2⟩
        · simp [hd] at hd2
        · simp [hd] at hd2
        · right; right; right; left
          exact ⟨by simp [transitionState, hp, hd, hr], trivial, by simp [transitionState, hd]⟩
        · simp [hr] at hr2
      · exact Or.inl rfl
    | tick now1 now2 =>
      simp only [step]
      rcases flags_cases s hinv with ⟨hp, hd, hr⟩ | ⟨hp, hd, hr⟩ | ⟨hp, hd, hr⟩ | ⟨hp, hd, hr⟩
      · rw [animate_idle M now1 now2 s hp hd]
        exact Or.inl rfl
      · by_cases hc : 1 ≤ s.panningProgress + 0.015
        · rw [animate_completeIn M now1 now2 s hp hr hc]
          right; right; left
          exact ⟨by simp [transitionState, hp, hd, hr], ⟨now1, now2, rfl⟩,
            by simp [transitionState, hr]⟩
        · rw [animate_inFlight M now1 now2 s hp (not_le.1 hc)]
          exact Or.inl rfl
      · rw [animate_panned M now1 now2 s hp hd]
        exact Or.inl rfl
      · by_cases hc : 1 ≤ s.panningProgress + 0.015
        · rw [animate_completeOut M now1 now2 s hp hr hc]
          right; right; right; right
          exact ⟨by simp [transitionState, hp, hd, hr], ⟨now1, now2, rfl⟩,
            by simp [transitionState]⟩
        · rw [animate_inFlight M now1 now2 s hp (not_le.1 hc)]
          exact Or.inl rfl

/-- Evaluation at a sample input: the state after the computer model has loaded
is reachable and stands for a TransitionState. -/
theorem transitionState_contract_witness :
    Reachable sampleMath sampleDom
      (run sampleMath [Event.load "8_bit_pc.glb" .gltf ⟨false, false⟩] (init sampleDom)) ∧
    ∃ q, transitionState
      (run sampleMath [Event.load "8_bit_pc.glb" .gltf ⟨false, false⟩] (init sampleDom)) =
        some q :=
  ⟨⟨_, rfl⟩, (transitionState_contract sampleMath sampleDom
    (run sampleMath [Event.load "8_bit_pc.glb" .gltf ⟨false, false⟩] (init sampleDom))
    ⟨_, rfl⟩).2.1⟩

/-- C4. Within a pan job, that is in a reachable state with `isPanning` true:
progress is in `[0, 1]` before and after a tick and does not decrease; the tick
leaves the endpoints of the job alone and puts the camera at
`lerpVectors(start, target, progress)`, which is `start` at progress 0; the
tick clears `isPanning` exactly when `progress + 0.015 >= 1`, and then progress
is exactly 1 and the camera is exactly at `targetPosition`, which is the zoomed
pose for an entering pan and the home pose for a returning pan, whatever the
start position; no other event changes the pan variables while the job is in
flight; and a job at progress 0 is completed by 67 ticks. -/
theorem panJob_contract (M : JsMath α) (dom : Dom α) (s : State α) (now1 now2 : ℤ)
    (hs : Reachable M dom s) (hp : s.isPanning = true) :
    (0 ≤ s.panningProgress ∧ s.panningProgress ≤ 1) ∧
    (0 ≤ (animateCameraPanning M now1 now2 s).panningProgress ∧
      (animateCameraPanning M now1 now2 s).panningProgress ≤ 1) ∧
    s.panningProgress ≤ (animateCameraPanning M now1 now2 s).panningProgress ∧
    (animateCameraPanning M now1 now2 s).startPosition = s.startPosition ∧
    (animateCameraPanning M now1 now2 s).targetPosition = s.targetPosition ∧
    (animateCameraPanning M now1 now2 s).cameraPosition =
      Vector3.lerpVectors s.startPosition s.targetPosition
        (animateCameraPanning M now1 now2 s).panningProgress ∧
    Vector3.lerpVectors s.startPosition s.targetPosition 0 = s.startPosition ∧
    ((animateCameraPanning M now1 now2 s).isPanning = false ↔ 1 ≤ s.panningProgress + 0.015) ∧
    ((animateCameraPanning M now1 now2 s).isPanning = false →
      (animateCameraPanning M now1 now2 s).panningProgress = 1 ∧
      (animateCameraPanning M now1 now2 s).cameraPosition = s.targetPosition ∧
      (animateCameraPanning M now1 now2 s).cameraPosition =
        (if s.isReturning = true then ⟨1.4, 1.1, 1.8⟩ else ⟨0.0118, 1.14, 0.6⟩)) ∧
    (∀ e : Event α, (∀ a b, e ≠ Event.tick a b) → panState (step M e s) = panState s) ∧
    (s.panningProgress = 0 → ∀ cs : List (ℤ × ℤ), cs.length = 67 →
      (run M (tickEvents cs) s).isPanning = false ∧
      (run M (tickEvents cs) s).panningProgress = 1 ∧
      (run M (tickEvents cs) s).cameraPosition = s.targetPosition) := by
  have hinv := inv_reachable M dom s hs
  have hinv2 := inv_animate M now1 now2 s hinv
  have htarget := hinv.2.2.2 hp
  have h15 : (0 : α) ≤ 0.015 := by norm_num
  refine ⟨⟨hinv.2.1, hinv.2.2.1⟩, ⟨hinv2.2.1, hinv2.2.2.1⟩, ?_, ?_, ?_, ?_, lerpVectors_zero _ _,
    ?_, ?_, fun e he => panState_step_of_panning M e s hinv hp he, ?_⟩
  · by_cases hc : 1 ≤ s.panningProgress + 0.015
    · rcases hr : s.isReturning with _ | _
      · rw [animate_completeIn M now1 now2 s hp hr hc]
        exact hinv.2.2.1
      · rw [animate_completeOut M now1 now2 s hp hr hc]
        exact hinv.2.2.1
    · rw [animate_inFlight M now1 now2 s hp (not_le.1 hc)]
      show s.panningProgress ≤ s.panningProgress + 0.015
      linarith
  · by_cases hc : 1 ≤ s.panningProgress + 0.015
    · rcases hr : s.isReturning with _ | _
      · rw [animate_completeIn M now1 now2 s hp hr hc]
      · rw [animate_completeOut M now1 now2 s hp hr hc]
    · rw [animate_inFlight M now1 now2 s hp (not_le.1 hc)]
      rfl
  · by_cases hc : 1 ≤ s.panningProgress + 0.015
    · rcases hr : s.isReturning with _ | _
      · rw [animate_completeIn M now1 now2 s hp hr hc]
      · rw [animate_completeOut M now1 now2 s hp hr hc]
    · rw [animate_inFlight M now1 now2 s hp (not_le.1 hc)]
      rfl
  · by_cases hc : 1 ≤ s.panningProgress + 0.015
    · rcases hr : s.isReturning with _ | _
      · rw [animate_completeIn M now1 now2 s hp hr hc]
        exact (lerpVectors_one _ _).symm
      · rw [animate_completeOut M now1 now2 s hp hr hc]
        exact (lerpVectors_one _ _).symm
    · rw [animate_inFlight M now1 now2 s hp (not_le.1 hc)]
      rfl
  · by_cases hc : 1 ≤ s.panningProgress + 0.015
    · rcases hr : s.isReturning with _ | _
      · rw [animate_completeIn M now1 now2 s hp hr hc]
        simp [hc]
      · rw [animate_completeOut M now1 now2 s hp hr hc]
        simp [hc]
    · rw [animate_inFlight M now1 now2 s hp (not_le.1 hc)]
      simp [panningAt, hp, hc]
  · by_cases hc : 1 ≤ s.panningProgress + 0.015
    · intro _
      rcases hr : s.isReturning with _ | _
      · rw [animate_completeIn M now1 now2 s hp hr hc]
        simp [htarget, hr, zoomedPosition]
      · rw [animate_completeOut M now1 now2 s hp hr hc]
        simp [htarget, hr, originalPosition]
    · rw [animate_inFlight M now1 now2 s hp (not_le.1 hc)]
      intro h
      simp [panningAt, hp] at h
  · intro h0 cs hlen
    obtain ⟨c, hc⟩ := run_ticks_67 M cs s hp h0 hlen
    have h99 : (1 : α) ≤ (panningAt s 0.99).panningProgress + 0.015 := by
      show (1 : α) ≤ 0.99 + 0.015
      norm_num
    rw [hc]
    rcases hr : s.isReturning with _ | _
    · rw [animate_completeIn M c.1 c.2 (panningAt s 0.99) hp hr h99]
      exact ⟨rfl, rfl, rfl⟩
    · rw [animate_completeOut M c.1 c.2 (panningAt s 0.99) hp hr h99]
      exact ⟨rfl, rfl, rfl⟩

/-- Evaluation at a sample input: the state after the computer model has loaded
and a click has hit is reachable and panning; a tick keeps progress at most 1,
and 67 ticks end the job at progress 1. -/
theorem panJob_contract_witness :
    Reachable sampleMath sampleDom
      (run sampleMath [Event.load "8_bit_pc.glb" .gltf ⟨false, false⟩, Event.click 1]
        (init sampleDom)) ∧
    (run sampleMath [Event.load "8_bit_pc.glb" .gltf ⟨false, false⟩, Event.click 1]
      (init sampleDom)).isPanning = true ∧
    (animateCameraPanning sampleMath 3 4
      (run sampleMath [Event.load "8_bit_pc.glb" .gltf ⟨false, false⟩, Event.click 1]
        (init sampleDom))).panningProgress ≤ 1 ∧
    (run sampleMath (tickEvents (List.replicate 67 (0, 0)))
      (run sampleMath [Event.load "8_bit_pc.glb" .gltf ⟨false, false⟩, Event.click 1]
        (init sampleDom))).panningProgress = 1 := by
  have h := panJob_contract sampleMath sampleDom
    (run sampleMath [Event.load "8_bit_pc.glb" .gltf ⟨false, false⟩, Event.click 1]
      (init sampleDom)) 3 4 ⟨_, rfl⟩ rfl
  exact ⟨⟨_, rfl⟩, rfl, h.2.1.2, (h.2.2.2.2.2.2.2.2.2.2 rfl (List.replicate 67 (0, 0))
    (by simp)).2.1⟩

/-! ### End to end -/

/-- C3. From the initial state with the computer model loaded (after any load
completions that set `computerModel`), which is Idle: a click whose ray hits,
67 ticks and the firing of the delayed reveal give Panned with
`controls.enabled = false`, the rectangle in the scene, `nav` opacity "1" and
`Title` opacity "0" (for the elements that exist); then `goBack` and 67 ticks
give Idle, all three flags false, with `controls.enabled = true`, the rectangle
not in the scene and `Title` opacity "1".  66 ticks are not enough in either
direction: the pan is then still in flight. -/
theorem endToEnd_contract (M : JsMath α) (dom : Dom α)
    (ls : List (String × LoadResult × Window)) (n : Nat) (cs1 cs2 : List (ℤ × ℤ)) (v : View α)
    (hcomp : (loadAll ls (init dom)).computerModel.isSome = true) (hn : 0 < n)
    (h1 : cs1.length = 67) (h2 : cs2.length = 67) :
    let s0 := loadAll ls (init dom)
    let s1 := run M ([Event.click n] ++ tickEvents cs1 ++ [Event.reveal v]) s0
    let s2 := run M ([Event.goBack] ++ tickEvents cs2) s1
    transitionState s0 = some .Idle ∧
    (transitionState s1 = some .Panned ∧ s1.controlsEnabled = false ∧
      SceneObject.rectangleMesh ∈ s1.scene ∧
      s1.nav.map (fun x => x.opacity) = dom.nav.map (fun _ => "1") ∧
      s1.title = dom.title.map (fun _ => "0")) ∧
    (transitionState s2 = some .Idle ∧ s2.isPanning = false ∧ s2.isPanned = false ∧
      s2.isReturning = false ∧ s2.controlsEnabled = true ∧
      SceneObject.rectangleMesh ∉ s2.scene ∧
      s2.title = dom.title.map (fun _ => "1")) ∧
    (∀ cs : List (ℤ × ℤ), cs.length = 66 →
      transitionState (run M ([Event.click n] ++ tickEvents cs) s0) = some .PanningIn) ∧
    (∀ cs : List (ℤ × ℤ), cs.length = 66 →
      transitionState (run M ([Event.goBack] ++ tickEvents cs) s1) = some .PanningOut) := by
  intro s0 s1 s2
  obtain ⟨hpan, hnav, htitle, _, _⟩ := loadAll_frame ls (init dom)
  simp only [panState, Prod.mk.injEq] at hpan
  have hp : s0.isPanning = false := hpan.1
  have hd : s0.isPanned = false := hpan.2.1
  have hr : s0.isReturning = false := hpan.2.2.1
  have e1 : s1 = fireReveal v (run M (tickEvents cs1) (click n s0)) := by
    simp only [s1, run_append, run_cons, run_nil, step, List.singleton_append]
  have e2 : s2 = run M (tickEvents cs2) (goBack s1) := by
    simp only [s2, run_cons, step, List.singleton_append]
  obtain ⟨a1, a2, a3, a4, a5, a6, a7⟩ := fireReveal_after_panIn M n cs1 v s0 hcomp hp hd hr hn h1
  rw [← e1] at a1 a2 a3 a4 a5 a6 a7
  have hs2 := run_panOut M cs2 s1 a2 a3 h2
  rw [← e2] at hs2
  refine ⟨by simp [transitionState, hp, hd, hr],
    ⟨by simp [transitionState, a1, a2, a3], a4, a5, ?_, ?_⟩, ?_, ?_, ?_⟩
  · rw [a6]
    exact congrArg (Option.map (fun _ => "1")) hnav
  · rw [a7]
    exact congrArg (Option.map (fun _ => "0")) htitle
  · rw [hs2]
    refine ⟨by simp [transitionState], rfl, rfl, rfl, rfl, by simp [mem_sceneRemove], ?_⟩
    show Option.map (fun _ => "1") s1.title = _
    rw [a7]
    have : s0.title = dom.title := htitle
    rw [this]
    cases dom.title <;> rfl
  · intro cs hcs
    have e : run M ([Event.click n] ++ tickEvents cs) s0 = run M (tickEvents cs) (click n s0) := by
      simp only [run_cons, step, List.singleton_append]
    rw [e, run_panIn_66 M n cs s0 hcomp hp hd hn hcs, click_eq, if_pos ⟨hcomp, hp, hd, hn⟩]
    simp [transitionState, panningAt, hd, hr]
  · intro cs hcs
    have e : run M ([Event.goBack] ++ tickEvents cs) s1 = run M (tickEvents cs) (goBack s1) := by
      simp only [run_cons, step, List.singleton_append]
    rw [e, run_panOut_66 M cs s1 a2 a3 hcs, goBack_eq, if_pos ⟨a2, a3⟩]
    simp [transitionState, panningAt, a2]

/-- Evaluation at sample inputs: the computer model loaded, one intersection,
67 ticks each way. -/
theorem endToEnd_contract_witness :
    transitionState
      (run sampleMath ([Event.click 1] ++ tickEvents (List.replicate 67 (0, 0)) ++
        [Event.reveal sampleView]) (loadAll sampleLoads (init sampleDom))) = some .Panned ∧
    transitionState
      (run sampleMath ([Event.goBack] ++ tickEvents (List.replicate 67 (0, 0)))
        (run sampleMath ([Event.click 1] ++ tickEvents (List.replicate 67 (0, 0)) ++
          [Event.reveal sampleView]) (loadAll sampleLoads (init sampleDom)))) = some .Idle := by
  have h := endToEnd_contract sampleMath sampleDom sampleLoads 1 (List.replicate 67 (0, 0))
    (List.replicate 67 (0, 0)) sampleView rfl (by decide) (by simp) (by simp)
  exact ⟨h.2.1.1, h.2.2.1.1⟩

/-! ### The delayed reveal against a back request -/

/-- C6. The code at the failing input: the computer model loaded, a click that
hits, 67 ticks (Panned, reveal pending), `goBack`, then the reveal fires.  The
rectangle is in the scene while the state is PanningOut, with `nav` opacity "1"
and the back button shown; and when the reveal fires only after the 67 ticks of
the return, the rectangle is in the scene in Idle. -/
theorem reveal_after_goBack_attaches_rectangle :
    SceneObject.rectangleMesh ∈
      (run sampleMath ([Event.click 1] ++ tickEvents (List.replicate 67 (0, 0)) ++
        [Event.goBack, Event.reveal sampleView]) (loadAll sampleLoads (init sampleDom))).scene ∧
    transitionState
      (run sampleMath ([Event.click 1] ++ tickEvents (List.replicate 67 (0, 0)) ++
        [Event.goBack, Event.reveal sampleView]) (loadAll sampleLoads (init sampleDom))) =
      some .PanningOut ∧
    (run sampleMath ([Event.click 1] ++ tickEvents (List.replicate 67 (0, 0)) ++
      [Event.goBack, Event.reveal sampleView])
      (loadAll sampleLoads (init sampleDom))).nav.map (fun x => x.opacity) = some "1" ∧
    SceneObject.rectangleMesh ∈
      (run sampleMath ([Event.click 1] ++ tickEvents (List.replicate 67 (0, 0)) ++
        [Event.goBack] ++ tickEvents (List.replicate 67 (0, 0)) ++ [Event.reveal sampleView])
        (loadAll sampleLoads (init sampleDom))).scene ∧
    transitionState
      (run sampleMath ([Event.click 1] ++ tickEvents (List.replicate 67 (0, 0)) ++
        [Event.goBack] ++ tickEvents (List.replicate 67 (0, 0)) ++ [Event.reveal sampleView])
        (loadAll sampleLoads (init sampleDom))) = some .Idle := by
  have h67 : (List.replicate 67 ((0 : ℤ), (0 : ℤ))).length = 67 := by simp
  have e1 : run sampleMath ([Event.click 1] ++ tickEvents (List.replicate 67 (0, 0)) ++
      [Event.goBack, Event.reveal sampleView]) (loadAll sampleLoads (init sampleDom)) =
      fireReveal sampleView (goBack (run sampleMath (tickEvents (List.replicate 67 (0, 0)))
        (click 1 (loadAll sampleLoads (init sampleDom))))) := by
    simp only [run_append, run_cons, run_nil, step, List.singleton_append]
  have e2 : run sampleMath ([Event.click 1] ++ tickEvents (List.replicate 67 (0, 0)) ++
      [Event.goBack] ++ tickEvents (List.replicate 67 (0, 0)) ++ [Event.reveal sampleView])
      (loadAll sampleLoads (init sampleDom)) =
      fireReveal sampleView (run sampleMath (tickEvents (List.replicate 67 (0, 0)))
        (goBack (run sampleMath (tickEvents (List.replicate 67 (0, 0)))
          (click 1 (loadAll sampleLoads (init sampleDom)))))) := by
    simp only [run_append, run_cons, run_nil, step, List.singleton_append]
  obtain ⟨hd, hr, hpend, hnav⟩ := run_panIn_facts sampleMath 1 (List.replicate 67 (0, 0))
    (loadAll sampleLoads (init sampleDom)) rfl rfl rfl rfl (by decide) h67
  have hnav0 : (loadAll sampleLoads (init sampleDom)).nav =
      some ⟨"0", "", none, none, none, none⟩ := rfl
  rw [hnav0] at hnav
  rw [e1, e2]
  generalize run sampleMath (tickEvents (List.replicate 67 (0, 0)))
    (click 1 (loadAll sampleLoads (init sampleDom))) = sP at hd hr hpend hnav ⊢
  obtain ⟨b1, b2, b3, b4, b5, _⟩ := fireReveal_after_goBack sampleView sP hd hr hpend
  obtain ⟨hflags, hpend2⟩ := run_panOut_facts sampleMath (List.replicate 67 (0, 0)) sP hd hr h67
  generalize run sampleMath (tickEvents (List.replicate 67 (0, 0))) (goBack sP) = sQ
    at hflags hpend2 ⊢
  simp only [flags, Prod.mk.injEq] at hflags
  obtain ⟨c1, c2, _, _⟩ := fireReveal_idle sampleView sQ hflags.2.1 (by rw [hpend2]; exact hpend)
  simp only [flags, Prod.mk.injEq] at c2
  refine ⟨b1, by simp [transitionState, b2, b3, b4], ?_, c1, ?_⟩
  · rw [b5, hnav]
    rfl
  · simp [transitionState, c2.1, c2.2.1, c2.2.2, hflags.1, hflags.2.1, hflags.2.2]

/-! ### The look-target and the idle drift -/

/-- C9, as the code has it.  On every tick of an entering pan, the completing
one included, `camera.lookAt` gets the zoomed look-target `(0.0118, 1.14, 0)`;
on every tick of a returning pan that does not complete it, `camera.lookAt`
gets the home look-target `(0, 0.6, 0)`, whatever the progress. -/
theorem lookTarget_contract (M : JsMath α) (now1 now2 : ℤ) (s : State α)
    (hp : s.isPanning = true) :
    (s.isReturning = false →
      (animateCameraPanning M now1 now2 s).cameraLookAt = ⟨0.0118, 1.14, 0⟩) ∧
    (s.isReturning = true → s.panningProgress + 0.015 < 1 →
      (animateCameraPanning M now1 now2 s).cameraLookAt = ⟨0, 0.6, 0⟩) := by
  constructor
  · intro hr
    by_cases hc : 1 ≤ s.panningProgress + 0.015
    · rw [animate_completeIn M now1 now2 s hp hr hc]
    · rw [animate_inFlight M now1 now2 s hp (not_le.1 hc)]
      simp [panningAt, lookTarget, hr]
  · intro hr hc
    rw [animate_inFlight M now1 now2 s hp hc]
    simp [panningAt, lookTarget, hr]

/-- Evaluation at sample inputs: the first tick after a click that hits, and the
first tick after a back request. -/
theorem lookTarget_contract_witness :
    (animateCameraPanning sampleMath 0 0
      (click 1 (loadAll sampleLoads (init sampleDom)))).cameraLookAt = ⟨0.0118, 1.14, 0⟩ ∧
    (animateCameraPanning sampleMath 0 0
      (goBack { init sampleDom with isPanned := true })).cameraLookAt = ⟨0, 0.6, 0⟩ :=
  ⟨(lookTarget_contract sampleMath 0 0 (click 1 (loadAll sampleLoads (init sampleDom))) rfl).1 rfl,
   (lookTarget_contract sampleMath 0 0 (goBack { init sampleDom with isPanned := true }) rfl).2
     rfl (by show (0 : ℚ) + 0.015 < 1; norm_num)⟩

/-- C9, counterexample to the claim as stated.  After a completed entering pan
and its reveal, the first tick of the return sets the look-target to
`(0, 0.6, 0)`, which is not the interpolation between the two look-targets at
progress 0.015; and the 67th tick, which completes the return at progress 1,
sets the look-target to the zoomed look-target `(0.0118, 1.14, 0)`, not to the
home look-target. -/
theorem lookTarget_return_counterexample :
    (run sampleMath ([Event.goBack] ++ tickEvents (List.replicate 1 (0, 0)))
      (run sampleMath ([Event.click 1] ++ tickEvents (List.replicate 67 (0, 0)) ++
        [Event.reveal sampleView]) (loadAll sampleLoads (init sampleDom)))).panningProgress =
      0.015 ∧
    (run sampleMath ([Event.goBack] ++ tickEvents (List.replicate 1 (0, 0)))
      (run sampleMath ([Event.click 1] ++ tickEvents (List.replicate 67 (0, 0)) ++
        [Event.reveal sampleView]) (loadAll sampleLoads (init sampleDom)))).cameraLookAt =
      ⟨0, 0.6, 0⟩ ∧
    (⟨0, 0.6, 0⟩ : Vector3 ℚ) ≠ Vector3.lerpVectors ⟨0.0118, 1.14, 0⟩ ⟨0, 0.6, 0⟩ 0.015 ∧
    (run sampleMath ([Event.goBack] ++ tickEvents (List.replicate 67 (0, 0)))
      (run sampleMath ([Event.click 1] ++ tickEvents (List.replicate 67 (0, 0)) ++
        [Event.reveal sampleView]) (loadAll sampleLoads (init sampleDom)))).panningProgress =
      1 ∧
    transitionState
      (run sampleMath ([Event.goBack] ++ tickEvents (List.replicate 67 (0, 0)))
        (run sampleMath ([Event.click 1] ++ tickEvents (List.replicate 67 (0, 0)) ++
          [Event.reveal sampleView]) (loadAll sampleLoads (init sampleDom)))) = some .Idle ∧
    (run sampleMath ([Event.goBack] ++ tickEvents (List.replicate 67 (0, 0)))
      (run sampleMath ([Event.click 1] ++ tickEvents (List.replicate 67 (0, 0)) ++
        [Event.reveal sampleView]) (loadAll sampleLoads (init sampleDom)))).cameraLookAt =
      ⟨0.0118, 1.14, 0⟩ ∧
    (⟨0.0118, 1.14, 0⟩ : Vector3 ℚ) ≠ ⟨0, 0.6, 0⟩ := by
  have h67 : (List.replicate 67 ((0 : ℤ), (0 : ℤ))).length = 67 := by simp
  have e1 : run sampleMath ([Event.click 1] ++ tickEvents (List.replicate 67 (0, 0)) ++
      [Event.reveal sampleView]) (loadAll sampleLoads (init sampleDom)) =
      fireReveal sampleView (run sampleMath (tickEvents (List.replicate 67 (0, 0)))
        (click 1 (loadAll sampleLoads (init sampleDom)))) := by
    simp only [run_append, run_cons, run_nil, step, List.singleton_append]
  obtain ⟨a1, a2, a3, _⟩ := fireReveal_after_panIn sampleMath 1 (List.replicate 67 (0, 0))
    sampleView (loadAll sampleLoads (init sampleDom)) rfl rfl rfl rfl (by decide) h67
  rw [← e1] at a1 a2 a3
  generalize run sampleMath ([Event.click 1] ++ tickEvents (List.replicate 67 (0, 0)) ++
      [Event.reveal sampleView]) (loadAll sampleLoads (init sampleDom)) = s1 at a1 a2 a3 ⊢
  have hback : (goBack s1).isPanning = true ∧ (goBack s1).isReturning = true ∧
      (goBack s1).panningProgress = 0 := by
    rw [goBack_eq, if_pos ⟨a2, a3⟩]
    exact ⟨rfl, rfl, rfl⟩
  have hlt : (goBack s1).panningProgress + 0.015 < 1 := by
    rw [hback.2.2]; norm_num
  have et : run sampleMath ([Event.goBack] ++ tickEvents (List.replicate 1 (0, 0))) s1 =
      animateCameraPanning sampleMath 0 0 (goBack s1) := rfl
  have e67 : run sampleMath ([Event.goBack] ++ tickEvents (List.replicate 67 (0, 0))) s1 =
      run sampleMath (tickEvents (List.replicate 67 (0, 0))) (goBack s1) := by
    simp only [run_cons, step, List.singleton_append]
  rw [et, e67, animate_inFlight sampleMath 0 0 (goBack s1) hback.1 hlt,
    run_panOut sampleMath (List.replicate 67 (0, 0)) s1 a2 a3 h67]
  refine ⟨?_, ?_, ?_, rfl, by simp [transitionState], rfl, ?_⟩
  · show (goBack s1).panningProgress + 0.015 = 0.015
    rw [hback.2.2]; norm_num
  · show lookTarget (goBack s1).isReturning = _
    rw [hback.2.1]
    simp [lookTarget]
  · intro h
    have hx := congrArg Vector3.x h
    norm_num [Vector3.lerpVectors] at hx
  · intro h
    have hx := congrArg Vector3.x h
    norm_num at hx

/-- C10. The idle drift, with `Math.sin` and `Math.cos` the real sine and
cosine.  A tick with `isPanning` and `isPanned` false adds
`(sin(now1·0.001)·0.001, cos(now2·0.001)·0.001, 0)` to the camera position,
where `now1` and `now2` are the two readings of `Date.now()`; with both
readings equal to `t` this is `(sin(0.001 t)·0.001, cos(0.001 t)·0.001, 0)`.
The change is at most 0.001 in absolute value on x and on y and zero on z.  A
tick in Panned leaves the camera position unchanged, and a tick of a pan in
flight sets the position to the interpolation between start and target at the
new progress, with no drift term. -/
theorem idleDrift_contract (s : State ℝ) (t now1 now2 : ℤ) :
    (s.isPanning = false → s.isPanned = false →
      (animateCameraPanning ⟨Real.sin, Real.cos⟩ t t s).cameraPosition =
        ⟨s.cameraPosition.x + Real.sin (0.001 * (t : ℝ)) * 0.001,
         s.cameraPosition.y + Real.cos (0.001 * (t : ℝ)) * 0.001,
         s.cameraPosition.z + 0⟩ ∧
      (animateCameraPanning ⟨Real.sin, Real.cos⟩ now1 now2 s).cameraPosition =
        ⟨s.cameraPosition.x + Real.sin (0.001 * (now1 : ℝ)) * 0.001,
         s.cameraPosition.y + Real.cos (0.001 * (now2 : ℝ)) * 0.001,
         s.cameraPosition.z + 0⟩ ∧
      |(animateCameraPanning ⟨Real.sin, Real.cos⟩ now1 now2 s).cameraPosition.x -
          s.cameraPosition.x| ≤ 0.001 ∧
      |(animateCameraPanning ⟨Real.sin, Real.cos⟩ now1 now2 s).cameraPosition.y -
          s.cameraPosition.y| ≤ 0.001 ∧
      (animateCameraPanning ⟨Real.sin, Real.cos⟩ now1 now2 s).cameraPosition.z -
          s.cameraPosition.z = 0) ∧
    (s.isPanning = false → s.isPanned = true →
      animateCameraPanning ⟨Real.sin, Real.cos⟩ now1 now2 s = s) ∧
    (s.isPanning = true →
      (animateCameraPanning ⟨Real.sin, Real.cos⟩ now1 now2 s).cameraPosition =
        Vector3.lerpVectors s.startPosition s.targetPosition
          (animateCameraPanning ⟨Real.sin, Real.cos⟩ now1 now2 s).panningProgress ∧
      (animateCameraPanning ⟨Real.sin, Real.cos⟩ now1 now2 s).panningProgress =
        (if 1 ≤ s.panningProgress + 0.015 then 1 else s.panningProgress + 0.015)) := by
  have hbound : ∀ u : ℝ, |u| ≤ 1 → |u * 0.001| ≤ 0.001 := by
    intro u hu
    rw [abs_mul]
    have : |(0.001 : ℝ)| = 0.001 := abs_of_pos (by norm_num)
    rw [this]
    nlinarith [abs_nonneg u]
  refine ⟨fun hp hd => ?_, fun hp hd => animate_panned _ now1 now2 s hp hd, fun hp => ?_⟩
  · rw [animate_idle _ t t s hp hd, animate_idle _ now1 now2 s hp hd]
    refine ⟨?_, ?_, ?_, ?_, ?_⟩
    · simp [mul_comm]
    · simp [mul_comm]
    · show |s.cameraPosition.x + Real.sin ((now1 : ℝ) * 0.001) * 0.001 - s.cameraPosition.x| ≤ _
      rw [add_sub_cancel_left]
      exact hbound _ (Real.abs_sin_le_one _)
    · show |s.cameraPosition.y + Real.cos ((now2 : ℝ) * 0.001) * 0.001 - s.cameraPosition.y| ≤ _
      rw [add_sub_cancel_left]
      exact hbound _ (Real.abs_cos_le_one _)
    · show s.cameraPosition.z - s.cameraPosition.z = 0
      exact sub_self _
  · by_cases hc : 1 ≤ s.panningProgress + 0.015
    · rcases hr : s.isReturning with _ | _
      · rw [animate_completeIn _ now1 now2 s hp hr hc]
        simp [hc, lerpVectors_one]
      · rw [animate_completeOut _ now1 now2 s hp hr hc]
        simp [hc, lerpVectors_one]
    · rw [animate_inFlight _ now1 now2 s hp (not_le.1 hc)]
      simp [panningAt, hc]

/-- Evaluation at sample inputs: a tick in the initial state, and a tick with
`isPanned` set. -/
theorem idleDrift_contract_witness :
    |(animateCameraPanning ⟨Real.sin, Real.cos⟩ 5 6
        (init (⟨none, none, none⟩ : Dom ℝ))).cameraPosition.x -
        (init (⟨none, none, none⟩ : Dom ℝ)).cameraPosition.x| ≤ 0.001 ∧
    animateCameraPanning ⟨Real.sin, Real.cos⟩ 5 6
        { init (⟨none, none, none⟩ : Dom ℝ) with isPanned := true } =
      { init (⟨none, none, none⟩ : Dom ℝ) with isPanned := true } :=
  ⟨((idleDrift_contract (init (⟨none, none, none⟩ : Dom ℝ)) 5 5 6).1 rfl rfl).2.2.1,
   (idleDrift_contract { init (⟨none, none, none⟩ : Dom ℝ) with isPanned := true } 5 5 6).2.1
     rfl rfl⟩

/-! ### The load counter: contract -/

/-- C7. The load counter.  Every completion of a `loadModel` request, success or
error, does to the counter and to the hooks what one call of `onModelLoaded`
does, so after the completions of 7 requests, in any order and with any
outcomes, `modelsLoaded = 7 = modelsToLoad`.  Over any sequence of
`onModelLoaded` calls from the start of the script, a call runs
`window.threeJsLoaded` exactly when it is the 7th call (and the hook is defined
then); with the hook defined throughout, the hook has run once after 7 or more
calls and not at all after fewer, and once after the 7 completions. -/
theorem loadCounter_contract (dom : Dom α) (ls : List (String × LoadResult × Window))
    (ws : List Window) (w : Window) (hls : ls.length = 7)
    (hhook : ∀ x ∈ ws, x.threeJsLoaded = true)
    (hlhook : ∀ l ∈ ls, l.2.2.threeJsLoaded = true) :
    (∀ (fileName : String) (r : LoadResult) (w0 : Window) (s : State α),
      counters (loadModel fileName r w0 s) = counters (onModelLoaded w0 s) ∧
      (onModelLoaded w0 s).modelsLoaded = s.modelsLoaded + 1) ∧
    (loadAll ls (init dom)).modelsLoaded = 7 ∧
    (loadAll ls (init dom)).modelsLoaded = modelsToLoad ∧
    (loadAll ls (init dom)).threeJsLoadedCalls = 1 ∧
    (onModelLoadedAll ws (init dom)).modelsLoaded = ws.length ∧
    (onModelLoadedAll (ws ++ [w]) (init dom)).threeJsLoadedCalls =
      (onModelLoadedAll ws (init dom)).threeJsLoadedCalls +
        (if ws.length + 1 = 7 ∧ w.threeJsLoaded = true then 1 else 0) ∧
    (onModelLoadedAll ws (init dom)).threeJsLoadedCalls = (if 7 ≤ ws.length then 1 else 0) := by
  have hc := counters_loadAll ls (init dom)
  simp only [counters, Prod.mk.injEq] at hc
  have hm : (loadAll ls (init dom)).modelsLoaded = 7 := by
    rw [hc.1, modelsLoaded_onModelLoadedAll]
    simp [init, hls]
  refine ⟨fun fileName r w0 s => ⟨counters_loadModel fileName r w0 s, ?_⟩, hm, hm, ?_, ?_,
    threeJsLoadedCalls_snoc ws w dom, threeJsLoadedCalls_total ws dom hhook⟩
  · exact congrArg Prod.fst (counters_onModelLoaded w0 s)
  · rw [hc.2.2, threeJsLoadedCalls_total _ dom]
    · simp [hls]
    · intro x hx
      rcases List.mem_map.1 hx with ⟨l, hl, rfl⟩
      exact hlhook l hl
  · rw [modelsLoaded_onModelLoadedAll]
    simp [init]

/-- Evaluation at sample inputs: the seven requests of lines 106-112, the second
and the last failing, and nine calls of `onModelLoaded`. -/
theorem loadCounter_contract_witness :
    (loadAll
      [("drawer_desk.glb", .gltf, ⟨true, true⟩), ("banker_lamp.glb", .error, ⟨true, true⟩),
       ("skimmia_japonica.glb", .gltf, ⟨true, true⟩),
       ("chair_daisy_plywood.glb", .gltf, ⟨true, true⟩),
       ("usb_flash_drive.glb", .gltf, ⟨true, true⟩),
       ("filing_cabinet_green.glb", .gltf, ⟨true, true⟩),
       ("8_bit_pc.glb", .error, ⟨true, true⟩)]
      (init (⟨none, none, none⟩ : Dom ℚ))).threeJsLoadedCalls = 1 ∧
    (onModelLoadedAll (List.replicate 8 ⟨false, true⟩ ++ [⟨false, true⟩])
      (init (⟨none, none, none⟩ : Dom ℚ))).threeJsLoadedCalls =
      (onModelLoadedAll (List.replicate 8 ⟨false, true⟩)
        (init (⟨none, none, none⟩ : Dom ℚ))).threeJsLoadedCalls + 0 := by
  have h := loadCounter_contract (⟨none, none, none⟩ : Dom ℚ)
    [("drawer_desk.glb", .gltf, ⟨true, true⟩), ("banker_lamp.glb", .error, ⟨true, true⟩),
     ("skimmia_japonica.glb", .gltf, ⟨true, true⟩),
     ("chair_daisy_plywood.glb", .gltf, ⟨true, true⟩),
     ("usb_flash_drive.glb", .gltf, ⟨true, true⟩),
     ("filing_cabinet_green.glb", .gltf, ⟨true, true⟩),
     ("8_bit_pc.glb", .error, ⟨true, true⟩)]
    (List.replicate 8 ⟨false, true⟩) ⟨false, true⟩ rfl
    (by intro x hx; rw [List.eq_of_mem_replicate hx])
    (by simp)
  exact ⟨h.2.2.2.1, by simpa using h.2.2.2.2.2.1⟩

/-! ### The overlay positioner -/

/-- C8. `updateNavPosition`, for every viewport and every four projected corner
points `p0 … p3`: the pixel coordinates computed by the code are those of the
formula of the specification; with `isPanned` true the `nav` element (when it
exists) gets `left = min x`, `top = min y`, `width = max x - min x`,
`height = max y - min y` over the four points, so that width and height are not
negative and every projected corner lies in the box; with `isPanned` false the
function returns the state unchanged. -/
theorem updateNavPosition_contract (v : View α) (s : State α) (p0 p1 p2 p3 : Vector3 α)
    (h0 : v.project ⟨-0.439, -0.255, 0⟩ = p0) (h1 : v.project ⟨0.439, -0.255, 0⟩ = p1)
    (h2 : v.project ⟨-0.439, 0.255, 0⟩ = p2) (h3 : v.project ⟨0.439, 0.255, 0⟩ = p3) :
    let q0 := specPixel p0 v.innerWidth v.innerHeight
    let q1 := specPixel p1 v.innerWidth v.innerHeight
    let q2 := specPixel p2 v.innerWidth v.innerHeight
    let q3 := specPixel p3 v.innerWidth v.innerHeight
    let left := min (min (min q0.1 q1.1) q2.1) q3.1
    let right := max (max (max q0.1 q1.1) q2.1) q3.1
    let top := min (min (min q0.2 q1.2) q2.2) q3.2
    let bottom := max (max (max q0.2 q1.2) q2.2) q3.2
    (s.isPanned = false → updateNavPosition v s = s) ∧
    (s.isPanned = true →
      updateNavPosition v s =
        { s with
          nav := s.nav.map (fun n =>
            { n with
              position := "absolute"
              left := some left
              top := some top
              width := some (right - left)
              height := some (bottom - top) }) }) ∧
    0 ≤ right - left ∧ 0 ≤ bottom - top ∧
    ∀ q ∈ [q0, q1, q2, q3],
      left ≤ q.1 ∧ q.1 ≤ left + (right - left) ∧ top ≤ q.2 ∧ q.2 ≤ top + (bottom - top) := by
  intro q0 q1 q2 q3 left right top bottom
  have e0 : toScreen v ⟨-0.439, -0.255, 0⟩ = q0 := by
    refine Prod.ext (by simp only [toScreen, specPixel, h0, q0]) ?_
    simp only [toScreen, specPixel, h0, q0]; ring
  have e1 : toScreen v ⟨0.439, -0.255, 0⟩ = q1 := by
    refine Prod.ext (by simp only [toScreen, specPixel, h1, q1]) ?_
    simp only [toScreen, specPixel, h1, q1]; ring
  have e2 : toScreen v ⟨-0.439, 0.255, 0⟩ = q2 := by
    refine Prod.ext (by simp only [toScreen, specPixel, h2, q2]) ?_
    simp only [toScreen, specPixel, h2, q2]; ring
  have e3 : toScreen v ⟨0.439, 0.255, 0⟩ = q3 := by
    refine Prod.ext (by simp only [toScreen, specPixel, h3, q3]) ?_
    simp only [toScreen, specPixel, h3, q3]; ring
  have hl0 : left ≤ q0.1 := le_trans (min_le_left _ _) (le_trans (min_le_left _ _) (min_le_left _ _))
  have hl1 : left ≤ q1.1 := le_trans (min_le_left _ _) (le_trans (min_le_left _ _) (min_le_right _ _))
  have hl2 : left ≤ q2.1 := le_trans (min_le_left _ _) (min_le_right _ _)
  have hl3 : left ≤ q3.1 := min_le_right _ _
  have hr0 : q0.1 ≤ right := le_trans (le_trans (le_max_left _ _) (le_max_left _ _)) (le_max_left _ _)
  have hr1 : q1.1 ≤ right := le_trans (le_trans (le_max_right _ _) (le_max_left _ _)) (le_max_left _ _)
  have hr2 : q2.1 ≤ right := le_trans (le_max_right _ _) (le_max_left _ _)
  have hr3 : q3.1 ≤ right := le_max_right _ _
  have ht0 : top ≤ q0.2 := le_trans (min_le_left _ _) (le_trans (min_le_left _ _) (min_le_left _ _))
  have ht1 : top ≤ q1.2 := le_trans (min_le_left _ _) (le_trans (min_le_left _ _) (min_le_right _ _))
  have ht2 : top ≤ q2.2 := le_trans (min_le_left _ _) (min_le_right _ _)
  have ht3 : top ≤ q3.2 := min_le_right _ _
  have hb0 : q0.2 ≤ bottom := le_trans (le_trans (le_max_left _ _) (le_max_left _ _)) (le_max_left _ _)
  have hb1 : q1.2 ≤ bottom := le_trans (le_trans (le_max_right _ _) (le_max_left _ _)) (le_max_left _ _)
  have hb2 : q2.2 ≤ bottom := le_trans (le_max_right _ _) (le_max_left _ _)
  have hb3 : q3.2 ≤ bottom := le_max_right _ _
  refine ⟨fun hp => by simp [updateNavPosition, hp], fun hp => ?_, by linarith, by linarith, ?_⟩
  · simp only [updateNavPosition, hp, e0, e1, e2, e3]
    rfl
  · intro q hq
    simp only [List.mem_cons, List.mem_singleton, List.not_mem_nil, or_false] at hq
    rcases hq with rfl | rfl | rfl | rfl
    · exact ⟨hl0, by linarith, ht0, by linarith⟩
    · exact ⟨hl1, by linarith, ht1, by linarith⟩
    · exact ⟨hl2, by linarith, ht2, by linarith⟩
    · exact ⟨hl3, by linarith, ht3, by linarith⟩

/-- Evaluation at sample inputs: the 800 by 600 viewport with the corners
projected to themselves.  With `isPanned` false nothing changes; with `isPanned`
true the box is left 224.4, top 223.5, width 351.2, height 153. -/
theorem updateNavPosition_contract_witness :
    updateNavPosition sampleView (init sampleDom) = init sampleDom ∧
    (updateNavPosition sampleView { init sampleDom with isPanned := true }).nav =
      some ⟨"0", "absolute", some 224.4, some 223.5, some 351.2, some 153⟩ := by
  have h := updateNavPosition_contract sampleView (init sampleDom)
    ⟨-0.439, -0.255, 0⟩ ⟨0.439, -0.255, 0⟩ ⟨-0.439, 0.255, 0⟩ ⟨0.439, 0.255, 0⟩ rfl rfl rfl rfl
  have h2 := updateNavPosition_contract sampleView { init sampleDom with isPanned := true }
    ⟨-0.439, -0.255, 0⟩ ⟨0.439, -0.255, 0⟩ ⟨-0.439, 0.255, 0⟩ ⟨0.439, 0.255, 0⟩ rfl rfl rfl rfl
  refine ⟨h.1 rfl, ?_⟩
  rw [h2.2.1 rfl]
  norm_num [init, sampleDom, sampleView, specPixel]

end Theorems

end MainJs
